import Mathlib

/-!
A shallow embedding, in Lean 4, of the tool-dispatch and session-auth core of
the google-workspace-mcp server (TypeScript sources: `schemas.ts`, `utils.ts`,
`auth.ts`, `meet-api.ts`, `gmail-api.ts`, `docs-api.ts`, `tools/handlers.ts`,
`config.ts`, `index.ts`).

Modelling conventions used throughout:
- External Google APIs, the clock, `Math.random`, locale rendering
  (`toLocaleString`) and the OAuth exchange are black-box collaborators: they
  appear as oracle fields of a `World` record.
- Stateful handler code (the lazily cached credential and the three service
  clients) is modelled by explicit state passing in a small monad `M` that also
  records a trace of the externally visible operations and supports thrown
  string errors (JavaScript exceptions carrying `error.message`).
- JavaScript strings are Lean `String`s, JavaScript numbers that the program
  feeds through `z.number()` are modelled as integers plus a non-integral
  marker (see `JValue`), `undefined`/`null`/optional fields are `Option`s, and
  the `||` operator's empty-string falsiness is modelled explicitly.
-/

namespace GW

/-! ## JavaScript-style string helpers -/

/-- Models the JavaScript expression `x || d` for `x : string | undefined`
(`undefined` and the empty string are falsy). -/
def jsOr (x : Option String) (d : String) : String :=
  match x with
  | some s => if s = "" then d else s
  | none => d

/-- Models `x || y` keeping the option (for chained `||` over optional strings). -/
def jsOrOpt (x : Option String) (y : Option String) : Option String :=
  match x with
  | some s => if s = "" then y else some s
  | none => y

/-- Truthiness of a `string | undefined` value (`!!x`). -/
def jsTruthy (x : Option String) : Bool :=
  match x with
  | some s => s ≠ ""
  | none => false

/-- Models `String(n)` / template interpolation of a possibly-NaN number
(`none` stands for NaN). -/
def numToString (x : Option Int) : String :=
  match x with
  | some n => toString n
  | none => "NaN"

/-- Models `s.padStart(2, "0")`. -/
def padStart2 (s : String) : String :=
  if s.length < 2 then String.mk (List.replicate (2 - s.length) '0') ++ s else s

/-- JavaScript whitespace (the characters relevant to this program). -/
def jsWhitespace (c : Char) : Bool :=
  c = ' ' || c = '\t' || c = '\n' || c = '\r'

/-- Digit value of a decimal digit character. -/
def digitVal (c : Char) : Nat := c.toNat - '0'.toNat

/-- Decimal value of a digit string. -/
def digitsToNat (cs : List Char) : Nat :=
  cs.foldl (fun acc c => acc * 10 + digitVal c) 0

/-- `String.prototype.split` with a single-character separator (all the
separators this program splits on are single characters). -/
def splitCharAux (sep : Char) : List Char → List (List Char)
  | [] => [[]]
  | x :: xs =>
    match splitCharAux sep xs with
    | h :: t => if x = sep then [] :: h :: t else (x :: h) :: t
    | [] => [[]]

def jsSplitChar (s : String) (sep : Char) : List String :=
  (splitCharAux sep s.data).map String.mk

/-- Models `Number(s)` restricted to the strings this program feeds it: after
trimming whitespace, an optionally signed digit string (`""` is 0, anything
else is NaN = `none`). -/
def jsNumberParse (s : String) : Option Int :=
  let t := (s.data.dropWhile jsWhitespace).reverse.dropWhile jsWhitespace |>.reverse
  if t = [] then some 0
  else if t.all Char.isDigit then some (Int.ofNat (digitsToNat t))
  else match t with
    | '-' :: rest => if rest ≠ [] ∧ rest.all Char.isDigit then
        some (-(Int.ofNat (digitsToNat rest))) else none
    | _ => none

/-- NaN-propagating addition on modelled JavaScript numbers. -/
def nanAdd (x y : Option Int) : Option Int :=
  match x, y with
  | some a, some b => some (a + b)
  | _, _ => none

/-- Models `Array.prototype.slice(0, e)` (a negative end counts from the end). -/
def jsSliceTo (l : List α) (e : Int) : List α :=
  if 0 ≤ e then l.take e.toNat else l.take (Int.toNat (Int.ofNat l.length + e))

/-! ## UTF-8 and base64 (Node's `Buffer.from(s).toString("base64")` pipeline) -/

/-- UTF-8 encoding of one character, as a list of byte values. -/
def utf8Enc (c : Char) : List Nat :=
  let n := c.toNat
  if n < 128 then [n]
  else if n < 2048 then [192 + n / 64, 128 + n % 64]
  else if n < 65536 then [224 + n / 4096, 128 + (n / 64) % 64, 128 + n % 64]
  else [240 + n / 262144, 128 + (n / 4096) % 64, 128 + (n / 64) % 64, 128 + n % 64]

/-- UTF-8 bytes of a string (`Buffer.from(s)` with the default encoding). -/
def strBytes (s : String) : List Nat :=
  s.data.flatMap utf8Enc

/-- The standard base64 alphabet, by 6-bit value. -/
def b64Char (n : Nat) : Char :=
  if n < 26 then Char.ofNat ('A'.toNat + n)
  else if n < 52 then Char.ofNat ('a'.toNat + (n - 26))
  else if n < 62 then Char.ofNat ('0'.toNat + (n - 52))
  else if n = 62 then '+'
  else '/'

/-- Standard base64 of a byte list, with `=` padding. -/
def b64EncodeBytes : List Nat → List Char
  | a :: b :: c :: rest =>
      b64Char (a / 4) :: b64Char ((a % 4) * 16 + b / 16) ::
      b64Char ((b % 16) * 4 + c / 64) :: b64Char (c % 64) :: b64EncodeBytes rest
  | [a, b] => [b64Char (a / 4), b64Char ((a % 4) * 16 + b / 16), b64Char ((b % 16) * 4), '=']
  | [a] => [b64Char (a / 4), b64Char ((a % 4) * 16), '=', '=']
  | [] => []

/-- `Buffer.from(s).toString("base64")`. -/
def b64Encode (s : String) : String :=
  String.mk (b64EncodeBytes (strBytes s))

/-- `s.replace(/x/g, y)` for single characters. -/
def replaceChar (s : String) (from_ to_ : Char) : String :=
  String.mk (s.data.map (fun c => if c = from_ then to_ else c))

/-- `s.replace(/=+$/, "")`: strip all trailing `=`. -/
def stripTrailingEq (s : String) : String :=
  String.mk (s.data.reverse.dropWhile (fun c => c = '=')).reverse

/-- Six-bit value of a base64url alphabet character (invalid characters are
skipped by Node's decoder, hence `Option`). -/
def b64Val (c : Char) : Option Nat :=
  if 'A' ≤ c ∧ c ≤ 'Z' then some (c.toNat - 'A'.toNat)
  else if 'a' ≤ c ∧ c ≤ 'z' then some (26 + c.toNat - 'a'.toNat)
  else if '0' ≤ c ∧ c ≤ '9' then some (52 + c.toNat - '0'.toNat)
  else if c = '-' ∨ c = '+' then some 62
  else if c = '_' ∨ c = '/' then some 63
  else none

/-- Base64 six-bit groups back to bytes. -/
def b64DecodeVals : List Nat → List Nat
  | a :: b :: c :: d :: rest =>
      (a * 4 + b / 16) :: ((b % 16) * 16 + c / 4) :: ((c % 4) * 64 + d) :: b64DecodeVals rest
  | [a, b] => [a * 4 + b / 16]
  | [a, b, c] => [a * 4 + b / 16, (b % 16) * 16 + c / 4]
  | _ => []

/-- UTF-8 decoding of a byte list (invalid sequences give the zero character;
only well-formed data produced by the APIs matters here). -/
def utf8Dec : List Nat → List Char
  | [] => []
  | b :: rest =>
    if b < 128 then Char.ofNat b :: utf8Dec rest
    else if b < 224 then
      match rest with
      | b2 :: rest2 => Char.ofNat ((b % 32) * 64 + b2 % 64) :: utf8Dec rest2
      | [] => [Char.ofNat 0]
    else if b < 240 then
      match rest with
      | b2 :: b3 :: rest3 =>
          Char.ofNat ((b % 16) * 4096 + (b2 % 64) * 64 + b3 % 64) :: utf8Dec rest3
      | _ => [Char.ofNat 0]
    else
      match rest with
      | b2 :: b3 :: b4 :: rest4 =>
          Char.ofNat ((b % 8) * 262144 + (b2 % 64) * 4096 + (b3 % 64) * 64 + b4 % 64) ::
            utf8Dec rest4
      | _ => [Char.ofNat 0]
termination_by l => l.length

/-- `Buffer.from(data, "base64url").toString("utf-8")`. -/
def b64UrlDecode (s : String) : String :=
  String.mk (utf8Dec (b64DecodeVals (s.data.filterMap b64Val)))

/-! ## Untyped JSON-ish input values and the Zod-schema validator

`schemas.ts` declares one Zod schema per tool and a generic `validateInput`
that either returns the typed record (defaults applied) or throws one
aggregated `Invalid input: ...` error. JavaScript numbers are modelled as an
integer together with integrality: `int n` is an integral number, `nonint n`
is a non-integral number whose floor is `n` (so `v < k ↔ n < k` and
`v > k ↔ n ≥ k` for integer bounds `k`). -/

inductive JValue where
  | undefinedV
  | null
  | bool (b : Bool)
  | int (n : Int)
  | nonint (n : Int)
  | str (s : String)
  | arr (xs : List JValue)
  | obj (kvs : List (String × JValue))
deriving Repr

/-- Zod's name for a parsed value's type, used in `invalid_type` messages. -/
def jReceived : JValue → String
  | .undefinedV => "undefined"
  | .null => "null"
  | .bool _ => "boolean"
  | .int _ => "number"
  | .nonint _ => "number"
  | .str _ => "string"
  | .arr _ => "array"
  | .obj _ => "object"

/-- Property access on an object: a missing key reads as `undefined`. -/
def jGet (kvs : List (String × JValue)) (k : String) : JValue :=
  ((kvs.find? (fun p => p.1 = k)).map (fun p => p.2)).getD .undefinedV

/-- One Zod issue: a field path and a message (`validateInput` joins them as
`path: message`). -/
structure Issue where
  path : List String
  msg : String
deriving Repr, DecidableEq

/-- Aggregate two field results the way `z.object` does: issues from every
field are collected, in field-declaration order. -/
def zComb (x : Except (List Issue) α) (y : Except (List Issue) β) :
    Except (List Issue) (α × β) :=
  match x, y with
  | .ok a, .ok b => .ok (a, b)
  | .ok _, .error i => .error i
  | .error i, .ok _ => .error i
  | .error i, .error j => .error (i ++ j)

/-- The `invalid_type` message: Zod reports plain `Required` when the value is
`undefined`, else `Expected ..., received ...`. -/
def typeIssueMsg (expected : String) (v : JValue) : String :=
  if jReceived v = "undefined" then "Required"
  else "Expected " ++ expected ++ ", received " ++ jReceived v

def typeIssue (key : String) (expected : String) (v : JValue) : Issue :=
  ⟨[key], typeIssueMsg expected v⟩

/-- Zod v3's email validation, as a predicate: the local part is nonempty over
the class `A-Z a-z 0-9 _ ' + - .`, does not start with a dot and does not end
with a dot or an apostrophe, the string holds no `..` anywhere, and the domain
is one or more `alnum(alnum|-)*` labels followed by a final all-letters label
of length at least two. -/
def zodEmailLocalChar (c : Char) : Bool :=
  c.isAlphanum || c = '_' || c = '\'' || c = '+' || c = '-' || c = '.'

def zodEmailLocalLast (c : Char) : Bool :=
  c.isAlphanum || c = '_' || c = '+' || c = '-'

def zodEmailLabel (l : String) : Bool :=
  match l.data with
  | [] => false
  | c :: rest => c.isAlphanum && rest.all (fun d => d.isAlphanum || d = '-')

/-- Whether the string holds two consecutive dots anywhere. -/
def hasDoubleDot : List Char → Bool
  | a :: b :: rest => (a = '.' && b = '.') || hasDoubleDot (b :: rest)
  | _ => false

def zodEmailCheck (s : String) : Bool :=
  match jsSplitChar s '@' with
  | [localPart, domain] =>
    (match localPart.data with
     | [] => false
     | c :: rest => (c ≠ '.' : Bool) && (c :: rest).all zodEmailLocalChar &&
         zodEmailLocalLast ((c :: rest).getLast (List.cons_ne_nil c rest)))
    && !(hasDoubleDot s.data)
    && (match jsSplitChar domain '.' with
       | [] => false
       | [_] => false
       | labels =>
         (labels.dropLast.all zodEmailLabel) &&
         (match labels.getLast? with
          | some tld => decide (tld.length ≥ 2) && tld.data.all Char.isAlpha
          | none => false))
  | _ => false

/-- `z.string().min(1, msg)`. -/
def parseStrMin1 (key msg : String) (v : JValue) : Except (List Issue) String :=
  match v with
  | .str s => if s.length < 1 then .error [⟨[key], msg⟩] else .ok s
  | other => .error [typeIssue key "string" other]

/-- `z.string()` with no checks. -/
def parseStr (key : String) (v : JValue) : Except (List Issue) String :=
  match v with
  | .str s => .ok s
  | other => .error [typeIssue key "string" other]

/-- `z.string().email(msg)`. -/
def parseStrEmail (key msg : String) (v : JValue) : Except (List Issue) String :=
  match v with
  | .str s => if zodEmailCheck s then .ok s else .error [⟨[key], msg⟩]
  | other => .error [typeIssue key "string" other]

/-- `z.string().optional()`. -/
def parseOptStr (key : String) (v : JValue) : Except (List Issue) (Option String) :=
  match v with
  | .undefinedV => .ok none
  | .str s => .ok (some s)
  | other => .error [typeIssue key "string" other]

/-- `z.string().optional().default(d)`. -/
def parseStrDefault (key d : String) (v : JValue) : Except (List Issue) String :=
  match v with
  | .undefinedV => .ok d
  | .str s => .ok s
  | other => .error [typeIssue key "string" other]

/-- `z.boolean().optional().default(d)`. -/
def parseBoolDefault (key : String) (d : Bool) (v : JValue) :
    Except (List Issue) Bool :=
  match v with
  | .undefinedV => .ok d
  | .bool b => .ok b
  | other => .error [typeIssue key "boolean" other]

/-- `z.number().int().min(mi).max(ma).optional().default(dflt)`: Zod runs the
three checks in order and collects every failing one. -/
def parseLimitField (key : String) (mi ma dflt : Int) (v : JValue) :
    Except (List Issue) Int :=
  match v with
  | .undefinedV => .ok dflt
  | .int n =>
    let issues :=
      (if n < mi then [Issue.mk [key] ("Number must be greater than or equal to " ++ toString mi)] else []) ++
      (if n > ma then [Issue.mk [key] ("Number must be less than or equal to " ++ toString ma)] else [])
    if issues = [] then .ok n else .error issues
  | .nonint n =>
    .error ([Issue.mk [key] "Expected integer, received float"] ++
      (if n < mi then [Issue.mk [key] ("Number must be greater than or equal to " ++ toString mi)] else []) ++
      (if n ≥ ma then [Issue.mk [key] ("Number must be less than or equal to " ++ toString ma)] else []))
  | other => .error [typeIssue key "number" other]

/-- Collect a list of element results, aggregating issues in element order. -/
def collectList : List (Except (List Issue) α) → Except (List Issue) (List α)
  | [] => .ok []
  | r :: rest =>
    match zComb r (collectList rest) with
    | .ok (a, as) => .ok (a :: as)
    | .error i => .error i

/-- `z.array(z.string().email()).optional()` (the `attendees` field; element
issues carry the index in their path and Zod's default `Invalid email`
message). -/
def parseOptEmailArray (key : String) (v : JValue) :
    Except (List Issue) (Option (List String)) :=
  match v with
  | .undefinedV => .ok none
  | .arr xs =>
    let results := xs.enum.map (fun p =>
      match p.2 with
      | .str s => if zodEmailCheck s then Except.ok s
          else Except.error [Issue.mk [key, toString p.1] "Invalid email"]
      | other =>
        Except.error [Issue.mk [key, toString p.1] (typeIssueMsg "string" other)])
    match collectList results with
    | .ok ss => .ok (some ss)
    | .error i => .error i
  | other => .error [typeIssue key "array" other]

/-! ### Per-tool schemas (`schemas.ts`) and `validateInput` -/

/-- Validated record for the limit-only schemas. -/
structure LimitArgs where
  limit : Int
deriving Repr, DecidableEq

/-- Validated record for the query+limit schemas. -/
structure QueryLimitArgs where
  query : String
  limit : Int
deriving Repr, DecidableEq

/-- Validated record for a single required-string schema (field name varies). -/
structure NameArgs where
  name : String
deriving Repr, DecidableEq

/-- Validated record for `SendEmailSchema` / `CreateDraftSchema`. -/
structure SendEmailParams where
  to_ : String
  subject : String
  body : String
  cc : Option String
  bcc : Option String
deriving Repr, DecidableEq

/-- Validated record for `CreateDocSchema`. -/
structure CreateDocParams where
  title : String
  content : Option String
deriving Repr, DecidableEq

/-- Validated record for `AppendToDocSchema`. -/
structure AppendToDocArgs where
  document_id : String
  text : String
deriving Repr, DecidableEq

/-- Validated record for `ReplaceInDocSchema`. -/
structure ReplaceInDocArgs where
  document_id : String
  search_text : String
  replace_text : String
  match_case : Bool
deriving Repr, DecidableEq

/-- Validated record for `CreateCalendarEventSchema`. -/
structure CreateCalendarEventParams where
  summary : String
  description : Option String
  start_time : String
  end_time : Option String
  duration_minutes : Int
  attendees : Option (List String)
  location : Option String
  timezone : String
  add_meet_link : Bool
deriving Repr, DecidableEq

/-- `z.object` boilerplate: a non-object input fails with a root-path
`invalid_type` issue. -/
def parseObj (parseFields : List (String × JValue) → Except (List Issue) α)
    (v : JValue) : Except (List Issue) α :=
  match v with
  | .obj kvs => parseFields kvs
  | other => .error [⟨[], typeIssueMsg "object" other⟩]

/-- `ListConferencesSchema`: limit in `[1,100]`, default 10. -/
def parseListConferences : JValue → Except (List Issue) LimitArgs :=
  parseObj (fun kvs =>
    match parseLimitField "limit" 1 100 10 (jGet kvs "limit") with
    | .ok l => .ok ⟨l⟩
    | .error i => .error i)

/-- `ListMeetingsSchema` (list_upcoming_meetings / list_past_meetings):
limit in `[1,100]`, default 10. -/
def parseListMeetings : JValue → Except (List Issue) LimitArgs :=
  parseObj (fun kvs =>
    match parseLimitField "limit" 1 100 10 (jGet kvs "limit") with
    | .ok l => .ok ⟨l⟩
    | .error i => .error i)

/-- `ListEmailsSchema`: limit in `[1,50]`, default 10. -/
def parseListEmails : JValue → Except (List Issue) LimitArgs :=
  parseObj (fun kvs =>
    match parseLimitField "limit" 1 50 10 (jGet kvs "limit") with
    | .ok l => .ok ⟨l⟩
    | .error i => .error i)

/-- `ListDocsSchema`: limit in `[1,50]`, default 10. -/
def parseListDocs : JValue → Except (List Issue) LimitArgs :=
  parseObj (fun kvs =>
    match parseLimitField "limit" 1 50 10 (jGet kvs "limit") with
    | .ok l => .ok ⟨l⟩
    | .error i => .error i)

/-- `SearchEmailsSchema`: required query, limit in `[1,50]` default 10. -/
def parseSearchEmails : JValue → Except (List Issue) QueryLimitArgs :=
  parseObj (fun kvs =>
    match zComb (parseStrMin1 "query" "Search query is required" (jGet kvs "query"))
        (parseLimitField "limit" 1 50 10 (jGet kvs "limit")) with
    | .ok (q, l) => .ok ⟨q, l⟩
    | .error i => .error i)

/-- `SearchDocsSchema`: required query, limit in `[1,50]` default 10. -/
def parseSearchDocs : JValue → Except (List Issue) QueryLimitArgs :=
  parseObj (fun kvs =>
    match zComb (parseStrMin1 "query" "Search query is required" (jGet kvs "query"))
        (parseLimitField "limit" 1 50 10 (jGet kvs "limit")) with
    | .ok (q, l) => .ok ⟨q, l⟩
    | .error i => .error i)

/-- A schema of one required nonempty string field. Used for
`GetConferenceSchema` (name), `ConferenceNameSchema`, `TranscriptNameSchema`,
`GetEmailSchema` / `TrashEmailSchema` / `MarkEmailSchema` (message_id),
`GetThreadSchema` (thread_id) and `GetDocSchema` (document_id). -/
def parseOneString (key msg : String) : JValue → Except (List Issue) NameArgs :=
  parseObj (fun kvs =>
    match parseStrMin1 key msg (jGet kvs key) with
    | .ok s => .ok ⟨s⟩
    | .error i => .error i)

/-- `SendEmailSchema` (also `CreateDraftSchema`). -/
def parseSendEmail : JValue → Except (List Issue) SendEmailParams :=
  parseObj (fun kvs =>
    match zComb (parseStrEmail "to" "Valid email address required" (jGet kvs "to"))
        (zComb (parseStrMin1 "subject" "Subject is required" (jGet kvs "subject"))
          (zComb (parseStrMin1 "body" "Email body is required" (jGet kvs "body"))
            (zComb (parseOptStr "cc" (jGet kvs "cc"))
              (parseOptStr "bcc" (jGet kvs "bcc"))))) with
    | .ok (t, subject, body, cc, bcc) => .ok ⟨t, subject, body, cc, bcc⟩
    | .error i => .error i)

/-- `CreateDocSchema`. -/
def parseCreateDoc : JValue → Except (List Issue) CreateDocParams :=
  parseObj (fun kvs =>
    match zComb (parseStrMin1 "title" "Document title is required" (jGet kvs "title"))
        (parseOptStr "content" (jGet kvs "content")) with
    | .ok (t, c) => .ok ⟨t, c⟩
    | .error i => .error i)

/-- `AppendToDocSchema`. -/
def parseAppendToDoc : JValue → Except (List Issue) AppendToDocArgs :=
  parseObj (fun kvs =>
    match zComb (parseStrMin1 "document_id" "Document ID is required" (jGet kvs "document_id"))
        (parseStrMin1 "text" "Text to append is required" (jGet kvs "text")) with
    | .ok (d, t) => .ok ⟨d, t⟩
    | .error i => .error i)

/-- `ReplaceInDocSchema`. -/
def parseReplaceInDoc : JValue → Except (List Issue) ReplaceInDocArgs :=
  parseObj (fun kvs =>
    match zComb (parseStrMin1 "document_id" "Document ID is required" (jGet kvs "document_id"))
        (zComb (parseStrMin1 "search_text" "Search text is required" (jGet kvs "search_text"))
          (zComb (parseStr "replace_text" (jGet kvs "replace_text"))
            (parseBoolDefault "match_case" false (jGet kvs "match_case")))) with
    | .ok (d, s, r, m) => .ok ⟨d, s, r, m⟩
    | .error i => .error i)

/-- `CreateCalendarEventSchema`. -/
def parseCreateCalendarEvent : JValue → Except (List Issue) CreateCalendarEventParams :=
  parseObj (fun kvs =>
    match zComb (parseStrMin1 "summary" "Event title is required" (jGet kvs "summary"))
        (zComb (parseOptStr "description" (jGet kvs "description"))
          (zComb (parseStrMin1 "start_time"
              "Start time is required (e.g., '2024-01-30 14:00' or ISO format)"
              (jGet kvs "start_time"))
            (zComb (parseOptStr "end_time" (jGet kvs "end_time"))
              (zComb (parseLimitField "duration_minutes" 5 480 60 (jGet kvs "duration_minutes"))
                (zComb (parseOptEmailArray "attendees" (jGet kvs "attendees"))
                  (zComb (parseOptStr "location" (jGet kvs "location"))
                    (zComb (parseStrDefault "timezone" "Asia/Kolkata" (jGet kvs "timezone"))
                      (parseBoolDefault "add_meet_link" true (jGet kvs "add_meet_link"))))))))) with
    | .ok (su, de, st, en, du, att, lo, tz, ml) => .ok ⟨su, de, st, en, du, att, lo, tz, ml⟩
    | .error i => .error i)

/-- `EmptySchema` (`z.object({})`): any object passes, defaults to unit. -/
def parseEmpty : JValue → Except (List Issue) Unit :=
  parseObj (fun _ => .ok ())

/-- The error message `validateInput` throws: every issue as `path: message`,
joined by `, `, behind the `Invalid input: ` prefix. -/
def formatIssues (issues : List Issue) : String :=
  "Invalid input: " ++ String.intercalate ", "
    (issues.map (fun i => String.intercalate "." i.path ++ ": " ++ i.msg))

/-! ## Response envelope and `utils.ts` -/

/-- The MCP tool response envelope: an ordered list of text segments (each
source segment is `{type: "text", text}`, so a segment is just its text here)
plus the error flag (`isError?`, absent meaning `false`). -/
structure ToolResponse where
  content : List String
  isError : Bool
deriving Repr, DecidableEq

def createErrorResponse (message : String) : ToolResponse :=
  ⟨[message], true⟩

def createSuccessResponse (text : String) : ToolResponse :=
  ⟨[text], false⟩

def NOT_AUTHENTICATED_RESPONSE : ToolResponse :=
  createErrorResponse "❌ Not authenticated. Please use the 'authenticate' tool first."

/-- `formatDate`: `toLocaleString` is locale/environment dependent, so it is
passed in as an oracle `locale`. -/
def formatDate (locale : String → String) (dateStr : Option String) : String :=
  match dateStr with
  | none => "N/A"
  | some s => if s = "" then "N/A" else locale s

/-- `formatDuration`: `new Date(s).getTime()` is the oracle `epochMs`;
`Math.floor` on the (real-valued) quotient is integer floor division, and the
JavaScript `%` keeps the dividend's sign (`Int.tmod`). -/
def formatDuration (epochMs : String → Int) (start end_ : Option String) : String :=
  if jsTruthy start = false ∨ jsTruthy end_ = false then "N/A"
  else
    let diffMs := epochMs (end_.getD "") - epochMs (start.getD "")
    let mins := Int.fdiv diffMs 60000
    let hours := Int.fdiv mins 60
    let remainingMins := Int.tmod mins 60
    if hours > 0 then toString hours ++ "h " ++ toString remainingMins ++ "m"
    else toString mins ++ "m"

/-! ## Domain records (`types.ts`), restricted to the fields the embedded code
reads; unread nested configuration/style sub-objects are omitted. -/

structure ConferenceRecord where
  name : String
  startTime : Option String
  endTime : Option String
  expireTime : Option String
  space : Option String
deriving Repr, DecidableEq

structure ParticipantUser where
  displayName : Option String
deriving Repr, DecidableEq

structure Participant where
  name : String
  earliestStartTime : Option String
  latestEndTime : Option String
  signedinUser : Option ParticipantUser
  anonymousUser : Option ParticipantUser
  phoneUser : Option ParticipantUser
deriving Repr, DecidableEq

structure Recording where
  name : String
  state : Option String
  startTime : Option String
  endTime : Option String
  driveExportUri : Option String
deriving Repr, DecidableEq

structure Transcript where
  name : String
  state : Option String
  startTime : Option String
  endTime : Option String
  docsExportUri : Option String
deriving Repr, DecidableEq

structure TranscriptEntry where
  name : String
  participant : Option String
  text : Option String
  startTime : Option String
  endTime : Option String
deriving Repr, DecidableEq

structure MeetingSpace where
  name : String
  meetingUri : Option String
  meetingCode : Option String
deriving Repr, DecidableEq

structure EntryPoint where
  uri : Option String
deriving Repr, DecidableEq

structure ConferenceSolution where
  name : Option String
deriving Repr, DecidableEq

structure ConferenceData where
  conferenceSolution : Option ConferenceSolution
  entryPoints : Option (List EntryPoint)
deriving Repr, DecidableEq

structure EventTime where
  dateTime : Option String
  date : Option String
  timeZone : Option String
deriving Repr, DecidableEq

structure MeetingEvent where
  id : Option String
  summary : Option String
  description : Option String
  start : Option EventTime
  end_ : Option EventTime
  hangoutLink : Option String
  conferenceData : Option ConferenceData
deriving Repr, DecidableEq

structure EventAttendee where
  email : Option String
  responseStatus : Option String
deriving Repr, DecidableEq

/-- The `calendar.events.insert` response body (all optional, as the handler
reads it through `|| ...` fallbacks). -/
structure InsertedEvent where
  id : Option String
  summary : Option String
  htmlLink : Option String
  start : Option EventTime
  end_ : Option EventTime
  hangoutLink : Option String
  attendees : Option (List EventAttendee)
deriving Repr, DecidableEq

structure CreatedEventTime where
  dateTime : Option String
  date : Option String
  timeZone : Option String
deriving Repr, DecidableEq

structure CreatedAttendee where
  email : String
  responseStatus : Option String
deriving Repr, DecidableEq

structure CreatedCalendarEvent where
  id : String
  summary : String
  htmlLink : String
  start : CreatedEventTime
  end_ : CreatedEventTime
  hangoutLink : Option String
  attendees : Option (List CreatedAttendee)
deriving Repr, DecidableEq

structure GmailHeader where
  name : String
  value : Option String
deriving Repr, DecidableEq

structure GmailBody where
  data : Option String
deriving Repr, DecidableEq

structure GmailPart where
  mimeType : Option String
  body : Option GmailBody
deriving Repr, DecidableEq

structure GmailPayload where
  headers : Option (List GmailHeader)
  body : Option GmailBody
  parts : Option (List GmailPart)
deriving Repr, DecidableEq

structure GmailMessage where
  id : String
  threadId : String
  labelIds : Option (List String)
  snippet : Option String
  payload : Option GmailPayload
deriving Repr, DecidableEq

structure GmailThread where
  id : String
  messages : Option (List GmailMessage)
deriving Repr, DecidableEq

structure GmailLabel where
  id : String
  name : String
deriving Repr, DecidableEq

structure GmailDraft where
  id : String
deriving Repr, DecidableEq

/-- The `users.getProfile` response body before the service's `|| 0` / `|| ""`
normalisation. -/
structure GmailProfileData where
  emailAddress : Option String
  messagesTotal : Option Int
  threadsTotal : Option Int
deriving Repr, DecidableEq

structure DriveFile where
  id : Option String
  name : Option String
  modifiedTime : Option String
deriving Repr, DecidableEq

structure TextRun where
  content : Option String
deriving Repr, DecidableEq

structure ParagraphElement where
  textRun : Option TextRun
deriving Repr, DecidableEq

structure DocParagraph where
  elements : Option (List ParagraphElement)
deriving Repr, DecidableEq

structure DocContent where
  endIndex : Option Int
  paragraph : Option DocParagraph
deriving Repr, DecidableEq

structure DocBody where
  content : Option (List DocContent)
deriving Repr, DecidableEq

structure GoogleDoc where
  documentId : String
  title : String
  body : Option DocBody
deriving Repr, DecidableEq

/-- `replies?.[0]?.replaceAllText?.occurrencesChanged` flattened: the
occurrence count if the first reply carries one. -/
structure BatchUpdateResp where
  firstReplaceOccurrences : Option Int
deriving Repr, DecidableEq

/-- `gmail-api.ts` helper `getHeader`. -/
def getHeader (message : GmailMessage) (headerName : String) : String :=
  let header := (message.payload.bind (fun p => p.headers)).getD [] |>.find?
    (fun h => h.name.toLower = headerName.toLower)
  jsOr (header.bind (fun h => h.value)) ""

/-- `gmail-api.ts` helper `decodeBody`. -/
def decodeBody (data : Option String) : String :=
  match data with
  | none => ""
  | some s => if s = "" then "" else b64UrlDecode s

/-- `gmail-api.ts` helper `getMessageBody`: top-level body first, then the
first `text/plain` part, then the first part with any body data. -/
def getMessageBody (message : GmailMessage) : String :=
  match message.payload.bind (fun p => p.body) |>.bind (fun b => b.data) with
  | some d => if d ≠ "" then decodeBody (some d) else getMessageBodyParts message
  | none => getMessageBodyParts message
where
  getMessageBodyParts (message : GmailMessage) : String :=
    match message.payload.bind (fun p => p.parts) with
    | some parts =>
      match parts.find? (fun part =>
          part.mimeType = some "text/plain" ∧ jsTruthy (part.body.bind (fun b => b.data))) with
      | some part => decodeBody (part.body.bind (fun b => b.data))
      | none =>
        match parts.find? (fun part => jsTruthy (part.body.bind (fun b => b.data))) with
        | some part => decodeBody (part.body.bind (fun b => b.data))
        | none => ""
    | none => ""

def getParticipantDisplayName (p : Participant) : String :=
  jsOr (jsOrOpt (p.signedinUser.bind (fun u => u.displayName))
    (jsOrOpt (p.anonymousUser.bind (fun u => u.displayName))
      (p.phoneUser.bind (fun u => u.displayName)))) "Unknown"

def getMeetingLink (event : MeetingEvent) : String :=
  jsOr (jsOrOpt event.hangoutLink
    ((event.conferenceData.bind (fun cd => cd.entryPoints)).getD [] |>.head?
      |>.bind (fun ep => ep.uri))) "N/A"

/-- `docs-api.ts` helper `getDocumentUrl`. -/
def getDocumentUrl (documentId : String) : String :=
  "https://docs.google.com/document/d/" ++ documentId ++ "/edit"

/-! ## Configuration (`config.ts`), restricted to the fields the core reads -/

structure GmailConfig where
  maxResults : Int
  defaultLabels : List String
deriving Repr, DecidableEq

structure ConfigDefaults where
  conferencePageSize : Int
  participantPageSize : Int
  transcriptPageSize : Int
  calendarMaxResults : Int
  pastMeetingsDays : Int
deriving Repr, DecidableEq

structure Config where
  defaults : ConfigDefaults
  gmail : GmailConfig
deriving Repr, DecidableEq

def config : Config :=
  { defaults :=
      { conferencePageSize := 10
        participantPageSize := 50
        transcriptPageSize := 100
        calendarMaxResults := 10
        pastMeetingsDays := 30 }
    gmail :=
      { maxResults := 10
        defaultLabels := ["INBOX"] } }

/-! ## Credential files and the auth module (`auth.ts`)

The filesystem is abstracted to what `auth.ts` observes: the parse outcome of
the credentials file (if present) and whether a saved token file exists. -/

/-- Parse outcome of `credentials.json`: a service-account key file (its
`type` field is `"service_account"`), an OAuth client file (which may or may
not carry an `installed`/`web` key), or unparsable JSON (`JSON.parse` throws
with this message). -/
inductive CredFile where
  | serviceAccount (clientEmail : String)
  | oauthKeys (hasInstalledOrWebKey : Bool)
  | badJson (parseError : String)
deriving Repr, DecidableEq

structure FsState where
  credentials : Option CredFile
  tokenExists : Bool
deriving Repr, DecidableEq

/-- `isAuthenticated()`: service accounts count as authenticated whenever the
credentials file parses; OAuth needs the saved token; parse errors are caught
and read as `false`. -/
def isAuthenticated (fs : FsState) : Bool :=
  match fs.credentials with
  | none => false
  | some (.badJson _) => false
  | some (.serviceAccount _) => true
  | some (.oauthKeys _) => fs.tokenExists

/-- `getAuthStatus()`: a pure function of the two files. -/
def getAuthStatus (fs : FsState) : String :=
  match fs.credentials with
  | none => "❌ No credentials found. Please add credentials.json to the project root."
  | some (.badJson _) => "❌ Error reading credentials file."
  | some (.serviceAccount clientEmail) => "✅ Service Account configured: " ++ clientEmail
  | some (.oauthKeys _) =>
    if fs.tokenExists then "✅ Authenticated with Google (OAuth)"
    else "⚠️ OAuth credentials found but not authenticated. Use the 'authenticate' tool to sign in."

/-- The instructive error `authenticate()` throws when `credentials.json` is
missing. -/
def credentialsNotFoundMessage (credentialsPath : String) : String :=
  "credentials.json not found at " ++ credentialsPath ++ "\n\n" ++
  "To get credentials:\n" ++
  "1. Go to https://console.cloud.google.com/\n" ++
  "2. Create a project and enable Google Meet API\n" ++
  "3. Go to APIs & Services → Credentials\n" ++
  "4. Create either:\n" ++
  "   - Service Account (recommended) - download JSON key\n" ++
  "   - OAuth client ID (Desktop app) - download JSON\n" ++
  "5. Save the file as 'credentials.json' in the project root"

/-! ## External-call trace events and requests -/

/-- The `calendar.events.insert` request the Meet service builds. -/
structure EventReq where
  summary : String
  description : Option String
  location : Option String
  startDateTime : String
  endDateTime : String
  timeZone : String
  attendees : Option (List String)
  conferenceRequestId : Option String
  conferenceDataVersion : Int
  sendUpdates : String
deriving Repr, DecidableEq

/-- One request of a `documents.batchUpdate` call. -/
inductive DocsUpdateReq where
  | insertText (index : Int) (text : String)
  | replaceAllText (search replace : String) (matchCase : Bool)
  | deleteContentRange (startIndex endIndex : Int)
deriving Repr, DecidableEq

/-- Trace of the externally visible operations a tool call performs, recorded
in order: every Google API invocation (with the arguments the code sends),
plus a marker for each run of `validateInput`. -/
inductive Ev where
  | validate
  | meetApi (endpoint : String)
  | calendarList (timeMin : String) (timeMax : Option String) (maxResults : Int)
  | calendarInsert (req : EventReq)
  | gmailProfile
  | gmailList (q : Option String) (maxResults : Int) (labelIds : List String)
  | gmailGet (id : String)
  | gmailThreadGet (id : String)
  | gmailLabels
  | gmailSend (raw : String)
  | gmailDraftCreate (raw : String)
  | gmailTrash (id : String)
  | gmailModify (id : String) (addLabelIds removeLabelIds : List String)
  | driveList (q : String) (pageSize : Int)
  | docsGet (id : String)
  | docsCreate (title : String)
  | docsBatchUpdate (id : String) (req : DocsUpdateReq)
deriving Repr, DecidableEq

/-! ## The handler-module state and effect monad

`handlers.ts` keeps four module-level singletons (`authInstance` and the three
service clients). Credentials are opaque handles, modelled as `Nat`; a cached
service client is modelled by the credential it was constructed with. -/

structure Cache where
  authInstance : Option Nat
  meetService : Option Nat
  gmailService : Option Nat
  docsService : Option Nat
deriving Repr, DecidableEq

def Cache.empty : Cache := ⟨none, none, none, none⟩

/-- Monad state: the singleton cache plus the trace so far. -/
abbrev St := Cache × List Ev

/-- The effect monad: state passing plus thrown string errors (a JavaScript
exception's `message`). State survives a throw, as it does in the source. -/
def M (α : Type) : Type := St → Except String α × St

def M.pure (a : α) : M α := fun st => (.ok a, st)

def M.bind (x : M α) (f : α → M β) : M β := fun st =>
  match x st with
  | (.ok a, st2) => f a st2
  | (.error e, st2) => (.error e, st2)

instance : Monad M where
  pure := M.pure
  bind := M.bind

/-- `throw new Error(e)`. -/
def M.throwM (e : String) : M α := fun st => (.error e, st)

/-- `try ... catch (error) ...` (every caught error is inspected through its
`message` string). -/
def M.tryCatchM (x : M α) (handler : String → M α) : M α := fun st =>
  match x st with
  | (.ok a, st2) => (.ok a, st2)
  | (.error e, st2) => handler e st2

def M.getCache : M Cache := fun st => (.ok st.1, st)

def M.setCache (c : Cache) : M Unit := fun st => (.ok (), (c, st.2))

/-- Record one external-call trace event. -/
def M.tell (e : Ev) : M Unit := fun st => (.ok (), (st.1, st.2 ++ [e]))

/-- Lift an oracle result: an `Except.error` is a thrown upstream error. -/
def M.ofExcept (x : Except String α) : M α := fun st => (x, st)

/-! ## The world: filesystem snapshot, clock, and external-API oracles

Every external collaborator (Google REST APIs, the OAuth exchange, `Date`,
`Math.random`, locale rendering) is a field here; an `Except.error` result
models the call throwing with that message. -/

structure World where
  fs : FsState
  credentialsPath : String
  saAuth : Nat
  tokenAuth : Nat
  oauthFlowResult : Except String Nat
  localeDate : String → String
  localeNum : Int → String
  epochMs : String → Int
  nowMs : Int
  msToIso : Int → String
  randSuffix : String
  confRecordsApi : Int → Except String (Option (List ConferenceRecord))
  confRecordApi : String → Except String ConferenceRecord
  participantsApi : String → Int → Except String (Option (List Participant))
  recordingsApi : String → Except String (Option (List Recording))
  transcriptsApi : String → Except String (Option (List Transcript))
  transcriptEntriesApi : String → Int → Except String (Option (List TranscriptEntry))
  createSpaceApi : Except String MeetingSpace
  calendarListApi : String → Option String → Int → Except String (Option (List MeetingEvent))
  calendarInsertApi : EventReq → Except String InsertedEvent
  gmailProfileApi : Except String GmailProfileData
  gmailListApi : Option String → Int → List String → Except String (Option (List String))
  gmailGetApi : String → Except String GmailMessage
  gmailThreadApi : String → Except String GmailThread
  gmailLabelsApi : Except String (Option (List GmailLabel))
  gmailSendApi : String → Except String GmailMessage
  gmailDraftApi : String → Except String GmailDraft
  gmailTrashApi : String → Except String Unit
  gmailModifyApi : String → List String → List String → Except String Unit
  driveListApi : String → Int → Except String (Option (List DriveFile))
  docsGetApi : String → Except String GoogleDoc
  docsCreateApi : String → Except String GoogleDoc
  docsBatchUpdateApi : String → DocsUpdateReq → Except String BatchUpdateResp

/-- `authenticate()` from `auth.ts`: a pure decision over the filesystem
snapshot and the auth oracles (no handler-module state is touched; the token
file write inside the interactive flow is part of the opaque exchange). -/
def authenticateFn (w : World) : Except String Nat :=
  match w.fs.credentials with
  | none => .error (credentialsNotFoundMessage w.credentialsPath)
  | some (.badJson parseError) => .error parseError
  | some (.serviceAccount _) => .ok w.saAuth
  | some (.oauthKeys hasInstalledOrWebKey) =>
    if w.fs.tokenExists then .ok w.tokenAuth
    else if hasInstalledOrWebKey then w.oauthFlowResult
    else .error "Invalid OAuth credentials format"

/-! ## Lazy credential / service-client cache (`handlers.ts` top half) -/

def M.modifyCache (f : Cache → Cache) : M Unit := fun st => (.ok (), (f st.1, st.2))

/-- `ensureAuth()`: cached credential, else auto-authenticate when a credential
source exists, else throw the distinguished `NOT_AUTHENTICATED` error. -/
def ensureAuth (w : World) : M Nat := do
  let c ← M.getCache
  match c.authInstance with
  | some a => M.pure a
  | none =>
    if isAuthenticated w.fs then
      match authenticateFn w with
      | .ok a => do
        M.modifyCache (fun c => { c with authInstance := some a })
        M.pure a
      | .error e => M.throwM e
    else M.throwM "NOT_AUTHENTICATED"

def getMeetService (w : World) : M Nat := do
  let c ← M.getCache
  match c.meetService with
  | some s => M.pure s
  | none => do
    let a ← ensureAuth w
    M.modifyCache (fun c => { c with meetService := some a })
    M.pure a

def getGmailService (w : World) : M Nat := do
  let c ← M.getCache
  match c.gmailService with
  | some s => M.pure s
  | none => do
    let a ← ensureAuth w
    M.modifyCache (fun c => { c with gmailService := some a })
    M.pure a

def getDocsService (w : World) : M Nat := do
  let c ← M.getCache
  match c.docsService with
  | some s => M.pure s
  | none => do
    let a ← ensureAuth w
    M.modifyCache (fun c => { c with docsService := some a })
    M.pure a

def withMeetAuth (w : World) (handler : Nat → M ToolResponse) : M ToolResponse :=
  M.tryCatchM (do
    let service ← getMeetService w
    handler service)
    (fun e => if e = "NOT_AUTHENTICATED" then M.pure NOT_AUTHENTICATED_RESPONSE else M.throwM e)

def withGmailAuth (w : World) (handler : Nat → M ToolResponse) : M ToolResponse :=
  M.tryCatchM (do
    let service ← getGmailService w
    handler service)
    (fun e => if e = "NOT_AUTHENTICATED" then M.pure NOT_AUTHENTICATED_RESPONSE else M.throwM e)

def withDocsAuth (w : World) (handler : Nat → M ToolResponse) : M ToolResponse :=
  M.tryCatchM (do
    let service ← getDocsService w
    handler service)
    (fun e => if e = "NOT_AUTHENTICATED" then M.pure NOT_AUTHENTICATED_RESPONSE else M.throwM e)

/-- `validateInput` in the monad: records a trace marker that validation ran,
then returns the record or throws the aggregated message. -/
def validateInputM (parse : JValue → Except (List Issue) α) (args : JValue) : M α := do
  M.tell .validate
  match parse args with
  | .ok a => M.pure a
  | .error issues => M.throwM (formatIssues issues)

/-! ## Meet / Calendar service (`meet-api.ts`) -/

/-- The Meet-filter: a named-solution match or a truthy `hangoutLink`. -/
def isMeetEvent (event : MeetingEvent) : Bool :=
  decide ((event.conferenceData.bind (fun cd => cd.conferenceSolution)).bind
    (fun cs => cs.name) = some "Google Meet") || jsTruthy event.hangoutLink

def listConferenceRecords (w : World) (pageSize : Int) : M (List ConferenceRecord) :=
  M.tryCatchM (do
    M.tell (.meetApi ("/conferenceRecords?pageSize=" ++ toString pageSize))
    let data ← M.ofExcept (w.confRecordsApi pageSize)
    M.pure (data.getD []))
    (fun e => M.throwM ("Failed to list conference records: " ++ e))

def getConferenceRecord (w : World) (name : String) : M ConferenceRecord :=
  M.tryCatchM (do
    M.tell (.meetApi ("/" ++ name))
    M.ofExcept (w.confRecordApi name))
    (fun e => M.throwM ("Failed to get conference record: " ++ e))

def listParticipants (w : World) (conferenceRecordName : String) (pageSize : Int) :
    M (List Participant) :=
  M.tryCatchM (do
    M.tell (.meetApi ("/" ++ conferenceRecordName ++ "/participants?pageSize=" ++ toString pageSize))
    let data ← M.ofExcept (w.participantsApi conferenceRecordName pageSize)
    M.pure (data.getD []))
    (fun e => M.throwM ("Failed to list participants: " ++ e))

def listRecordings (w : World) (conferenceRecordName : String) : M (List Recording) :=
  M.tryCatchM (do
    M.tell (.meetApi ("/" ++ conferenceRecordName ++ "/recordings"))
    let data ← M.ofExcept (w.recordingsApi conferenceRecordName)
    M.pure (data.getD []))
    (fun e => M.throwM ("Failed to list recordings: " ++ e))

def listTranscripts (w : World) (conferenceRecordName : String) : M (List Transcript) :=
  M.tryCatchM (do
    M.tell (.meetApi ("/" ++ conferenceRecordName ++ "/transcripts"))
    let data ← M.ofExcept (w.transcriptsApi conferenceRecordName)
    M.pure (data.getD []))
    (fun e => M.throwM ("Failed to list transcripts: " ++ e))

def listTranscriptEntries (w : World) (transcriptName : String) (pageSize : Int) :
    M (List TranscriptEntry) :=
  M.tryCatchM (do
    M.tell (.meetApi ("/" ++ transcriptName ++ "/entries?pageSize=" ++ toString pageSize))
    let data ← M.ofExcept (w.transcriptEntriesApi transcriptName pageSize)
    M.pure (data.getD []))
    (fun e => M.throwM ("Failed to list transcript entries: " ++ e))

def createSpace (w : World) : M MeetingSpace :=
  M.tryCatchM (do
    M.tell (.meetApi "/spaces")
    M.ofExcept w.createSpaceApi)
    (fun e => M.throwM ("Failed to create meeting space: " ++ e))

def listUpcomingMeetings (w : World) (maxResults : Int) : M (List MeetingEvent) :=
  M.tryCatchM (do
    let now := w.msToIso w.nowMs
    M.tell (.calendarList now none (maxResults * 2))
    let response ← M.ofExcept (w.calendarListApi now none (maxResults * 2))
    let events := response.getD []
    let meetEvents := events.filter isMeetEvent
    M.pure (jsSliceTo meetEvents maxResults))
    (fun e => M.throwM ("Failed to list upcoming meetings: " ++ e))

def listPastMeetings (w : World) (maxResults : Int) : M (List MeetingEvent) :=
  M.tryCatchM (do
    let pastDays := config.defaults.pastMeetingsDays
    let timeMin := w.msToIso (w.nowMs - pastDays * 24 * 60 * 60 * 1000)
    let timeMax := w.msToIso w.nowMs
    M.tell (.calendarList timeMin (some timeMax) (maxResults * 2))
    let response ← M.ofExcept (w.calendarListApi timeMin (some timeMax) (maxResults * 2))
    let events := response.getD []
    let meetEvents := events.filter isMeetEvent
    M.pure (jsSliceTo meetEvents maxResults))
    (fun e => M.throwM ("Failed to list past meetings: " ++ e))

/-! ### `parseDateTime` and the end-time computation -/

/-- `\d{4}-\d{2}-\d{2}` on exactly ten characters. -/
def matchDate10 (cs : List Char) : Bool :=
  match cs with
  | [a, b, c, d, e, f, g, h, i, j] =>
    a.isDigit && b.isDigit && c.isDigit && d.isDigit && e = '-' &&
    f.isDigit && g.isDigit && h = '-' && i.isDigit && j.isDigit
  | _ => false

/-- `input.match(/^(\d{4}-\d{2}-\d{2})\s+(.+)$/)`: date prefix, at least one
whitespace, and a nonempty remainder (when everything after the date is
whitespace, backtracking leaves the final whitespace character to `(.+)`). -/
def splitDateMatch (s : String) : Option (String × String) :=
  let cs := s.data
  if matchDate10 (cs.take 10) then
    match cs.drop 10 with
    | [] => none
    | c :: rest =>
      if jsWhitespace c then
        let timeCs := (c :: rest).dropWhile jsWhitespace
        if timeCs.isEmpty then
          some (String.mk (cs.take 10), String.mk [(c :: rest).getLast (List.cons_ne_nil c rest)])
        else some (String.mk (cs.take 10), String.mk timeCs)
      else none
  else none

/-- `^(\d{1,2}):(\d{2})$`. -/
def parseTime24 (cs : List Char) : Option (Nat × Nat) :=
  match cs with
  | [h1, ':', m1, m2] =>
    if h1.isDigit && m1.isDigit && m2.isDigit then
      some (digitVal h1, 10 * digitVal m1 + digitVal m2)
    else none
  | [h1, h2, ':', m1, m2] =>
    if h1.isDigit && h2.isDigit && m1.isDigit && m2.isDigit then
      some (10 * digitVal h1 + digitVal h2, 10 * digitVal m1 + digitVal m2)
    else none
  | _ => none

/-- `(am|pm)` case-insensitively; `true` means pm. -/
def parseAmPm (cs : List Char) : Option Bool :=
  match cs with
  | [a, m] =>
    if (a = 'a' || a = 'A') && (m = 'm' || m = 'M') then some false
    else if (a = 'p' || a = 'P') && (m = 'm' || m = 'M') then some true
    else none
  | _ => none

/-- `^(\d{1,2}):(\d{2})\s*(am|pm)$` case-insensitively. -/
def parseTime12 (cs : List Char) : Option (Nat × Nat × Bool) :=
  match cs with
  | h1 :: ':' :: m1 :: m2 :: rest =>
    if h1.isDigit && m1.isDigit && m2.isDigit then
      (parseAmPm (rest.dropWhile jsWhitespace)).map
        (fun pm => (digitVal h1, 10 * digitVal m1 + digitVal m2, pm))
    else none
  | h1 :: h2 :: ':' :: m1 :: m2 :: rest =>
    if h1.isDigit && h2.isDigit && m1.isDigit && m2.isDigit then
      (parseAmPm (rest.dropWhile jsWhitespace)).map
        (fun pm => (10 * digitVal h1 + digitVal h2, 10 * digitVal m1 + digitVal m2, pm))
    else none
  | _ => none

/-- `^(\d{1,2})\s*(am|pm)?$` case-insensitively. -/
def parseHourOnly (cs : List Char) : Option (Nat × Option Bool) :=
  match cs with
  | h1 :: rest =>
    if h1.isDigit then
      let (hours, tail) :=
        match rest with
        | h2 :: rest2 => if h2.isDigit then (10 * digitVal h1 + digitVal h2, rest2)
            else (digitVal h1, rest)
        | [] => (digitVal h1, rest)
      let after := tail.dropWhile jsWhitespace
      if after.isEmpty then some (hours, none)
      else (parseAmPm after).map (fun pm => (hours, some pm))
    else none
  | [] => none

/-- The 12-hour adjustment the source applies after a successful am/pm match. -/
def adjust12 (hours : Nat) (isPM : Bool) : Nat :=
  if isPM ∧ hours ≠ 12 then hours + 12
  else if ¬ isPM ∧ hours = 12 then 0
  else hours

/-- `parseDateTime(input, timezone)` (the timezone parameter is unused by the
source too): ISO-looking input (containing `T` or `Z`) passes through, a
`date time` shape is normalised to `YYYY-MM-DDTHH:MM:00`, anything else is
returned unchanged. -/
def parseDateTime (input : String) (_timezone : String) : String :=
  if input.data.contains 'T' || input.data.contains 'Z' then input
  else
    match splitDateMatch input with
    | some (datePart, timePart) =>
      let timeCs := timePart.data
      let hm : Nat × Nat :=
        match parseTime24 timeCs with
        | some (h, m) => (h, m)
        | none =>
          match parseTime12 timeCs with
          | some (h, m, isPM) => (adjust12 h isPM, m)
          | none =>
            match parseHourOnly timeCs with
            | some (h, some isPM) => (adjust12 h isPM, 0)
            | some (h, none) => (h, 0)
            | none => (0, 0)
      datePart ++ "T" ++ padStart2 (toString hm.1) ++ ":" ++ padStart2 (toString hm.2) ++ ":00"
    | none => input

/-- NaN-propagating multiplication. -/
def nanMul (x : Option Int) (k : Int) : Option Int := x.map (fun a => a * k)

/-- The `else` branch of `createCalendarEvent`'s end-time computation: split
the start at `T`, read hours and minutes with `Number`, add the duration, and
rebuild the time-of-day with the hour reduced modulo 24 on the same date.
A start with no `T` part makes the property access throw (`TypeError`). -/
def calcEndDateTime (startDateTime : String) (durationMinutes : Int) : Except String String :=
  match jsSplitChar startDateTime 'T' with
  | datePart :: timePart :: _ =>
    let parts := (jsSplitChar timePart ':').map jsNumberParse
    let hours := (parts.get? 0).join
    let minutes := (parts.get? 1).join
    let totalMinutes := nanAdd (nanAdd (nanMul hours 60) minutes) (some durationMinutes)
    let endHours := totalMinutes.map (fun t => Int.tmod (Int.fdiv t 60) 24)
    let endMins := totalMinutes.map (fun t => Int.tmod t 60)
    .ok (datePart ++ "T" ++ padStart2 (numToString endHours) ++ ":" ++
      padStart2 (numToString endMins) ++ ":00")
  | _ => .error "TypeError: Cannot read properties of undefined (reading 'split')"

/-- `s || undefined`. -/
def jsOrUndef (x : Option String) : Option String :=
  match x with
  | some s => if s = "" then none else some s
  | none => none

/-- `n || d` on numbers (0 is falsy). -/
def jsOrNum (x : Option Int) (d : Int) : Int :=
  match x with
  | some n => if n = 0 then d else n
  | none => d

def createCalendarEvent (w : World) (params : CreateCalendarEventParams) :
    M CreatedCalendarEvent :=
  M.tryCatchM (do
    let timezone := if params.timezone = "" then "America/Los_Angeles" else params.timezone
    let startDateTime := parseDateTime params.start_time timezone
    let endDateTime ←
      if jsTruthy params.end_time then
        M.pure (parseDateTime (params.end_time.getD "") timezone)
      else
        M.ofExcept (calcEndDateTime startDateTime
          (if params.duration_minutes = 0 then 60 else params.duration_minutes))
    let attendeesField : Option (List String) :=
      match params.attendees with
      | some l => if l.length > 0 then some l else none
      | none => none
    let req : EventReq :=
      { summary := params.summary
        description := params.description
        location := params.location
        startDateTime := startDateTime
        endDateTime := endDateTime
        timeZone := timezone
        attendees := attendeesField
        conferenceRequestId :=
          if params.add_meet_link then
            some ("meet-" ++ toString w.nowMs ++ "-" ++ w.randSuffix)
          else none
        conferenceDataVersion := if params.add_meet_link then 1 else 0
        sendUpdates :=
          match params.attendees with
          | some l => if l.length > 0 then "all" else "none"
          | none => "none" }
    M.tell (.calendarInsert req)
    let event ← M.ofExcept (w.calendarInsertApi req)
    M.pure
      { id := jsOr event.id ""
        summary := jsOr event.summary params.summary
        htmlLink := jsOr event.htmlLink ""
        start :=
          { dateTime := jsOrUndef (event.start.bind (fun t => t.dateTime))
            date := jsOrUndef (event.start.bind (fun t => t.date))
            timeZone := some (jsOr (event.start.bind (fun t => t.timeZone)) timezone) }
        end_ :=
          { dateTime := jsOrUndef (event.end_.bind (fun t => t.dateTime))
            date := jsOrUndef (event.end_.bind (fun t => t.date))
            timeZone := some (jsOr (event.end_.bind (fun t => t.timeZone)) timezone) }
        hangoutLink := jsOrUndef event.hangoutLink
        attendees := event.attendees.map (fun l => l.map (fun a =>
          { email := jsOr a.email ""
            responseStatus := jsOrUndef a.responseStatus })) })
    (fun e => M.throwM ("Failed to create calendar event: " ++ e))

/-! ## Gmail service (`gmail-api.ts`) -/

structure GmailProfile where
  emailAddress : String
  messagesTotal : Int
  threadsTotal : Int
deriving Repr, DecidableEq

def getProfile (w : World) : M GmailProfile :=
  M.tryCatchM (do
    M.tell .gmailProfile
    let response ← M.ofExcept w.gmailProfileApi
    M.pure
      { emailAddress := jsOr response.emailAddress ""
        messagesTotal := jsOrNum response.messagesTotal 0
        threadsTotal := jsOrNum response.threadsTotal 0 })
    (fun e => M.throwM ("Failed to get Gmail profile: " ++ e))

def getMessage (w : World) (messageId : String) : M GmailMessage :=
  M.tryCatchM (do
    M.tell (.gmailGet messageId)
    M.ofExcept (w.gmailGetApi messageId))
    (fun e => M.throwM ("Failed to get message: " ++ e))

def getThread (w : World) (threadId : String) : M GmailThread :=
  M.tryCatchM (do
    M.tell (.gmailThreadGet threadId)
    M.ofExcept (w.gmailThreadApi threadId))
    (fun e => M.throwM ("Failed to get thread: " ++ e))

def listLabels (w : World) : M (List GmailLabel) :=
  M.tryCatchM (do
    M.tell .gmailLabels
    let data ← M.ofExcept w.gmailLabelsApi
    M.pure (data.getD []))
    (fun e => M.throwM ("Failed to list labels: " ++ e))

/-- `Promise.all(messages.map(msg => this.getMessage(msg.id!)))`: fetch the
full message for every listed id, in order (rejections surface in order in
this sequential model). -/
def mapMessages (w : World) : List String → M (List GmailMessage)
  | [] => M.pure []
  | msgId :: rest => do
    let full ← getMessage w msgId
    let fulls ← mapMessages w rest
    M.pure (full :: fulls)

/-- `listMessages(query?, maxResults = config.gmail.maxResults, labelIds =
config.gmail.defaultLabels)`: list ids, then fetch each full message. -/
def listMessages (w : World) (query : Option String) (maxResults : Int)
    (labelIds : List String) : M (List GmailMessage) :=
  M.tryCatchM (do
    M.tell (.gmailList query maxResults labelIds)
    let data ← M.ofExcept (w.gmailListApi query maxResults labelIds)
    let messages := data.getD []
    let fullMessages ← mapMessages w messages
    M.pure fullMessages)
    (fun e => M.throwM ("Failed to list messages: " ++ e))

/-- `searchEmails(query, maxResults)` is exactly `listMessages` with the query
and an empty label filter. -/
def searchEmails (w : World) (query : String) (maxResults : Int) : M (List GmailMessage) :=
  listMessages w (some query) maxResults []

def sendEmail (w : World) (params : SendEmailParams) : M GmailMessage :=
  M.tryCatchM (do
    let headers :=
      ["To: " ++ params.to_,
       "Subject: " ++ params.subject,
       "Content-Type: text/plain; charset=utf-8",
       "MIME-Version: 1.0"]
      ++ (match params.cc with
          | some c => if c ≠ "" then ["Cc: " ++ c] else []
          | none => [])
      ++ (match params.bcc with
          | some b => if b ≠ "" then ["Bcc: " ++ b] else []
          | none => [])
    let email := String.intercalate "\r\n" headers ++ "\r\n\r\n" ++ params.body
    let encodedEmail :=
      stripTrailingEq (replaceChar (replaceChar (b64Encode email) '+' '-') '/' '_')
    M.tell (.gmailSend encodedEmail)
    M.ofExcept (w.gmailSendApi encodedEmail))
    (fun e => M.throwM ("Failed to send email: " ++ e))

def createDraft (w : World) (params : SendEmailParams) : M GmailDraft :=
  M.tryCatchM (do
    let headers :=
      ["To: " ++ params.to_,
       "Subject: " ++ params.subject,
       "Content-Type: text/plain; charset=utf-8",
       "MIME-Version: 1.0"]
      ++ (match params.cc with
          | some c => if c ≠ "" then ["Cc: " ++ c] else []
          | none => [])
      ++ (match params.bcc with
          | some b => if b ≠ "" then ["Bcc: " ++ b] else []
          | none => [])
    let email := String.intercalate "\r\n" headers ++ "\r\n\r\n" ++ params.body
    let encodedEmail :=
      stripTrailingEq (replaceChar (replaceChar (b64Encode email) '+' '-') '/' '_')
    M.tell (.gmailDraftCreate encodedEmail)
    M.ofExcept (w.gmailDraftApi encodedEmail))
    (fun e => M.throwM ("Failed to create draft: " ++ e))

def trashMessage (w : World) (messageId : String) : M Unit :=
  M.tryCatchM (do
    M.tell (.gmailTrash messageId)
    M.ofExcept (w.gmailTrashApi messageId))
    (fun e => M.throwM ("Failed to trash message: " ++ e))

def markAsRead (w : World) (messageId : String) : M Unit :=
  M.tryCatchM (do
    M.tell (.gmailModify messageId [] ["UNREAD"])
    M.ofExcept (w.gmailModifyApi messageId [] ["UNREAD"]))
    (fun e => M.throwM ("Failed to mark message as read: " ++ e))

def markAsUnread (w : World) (messageId : String) : M Unit :=
  M.tryCatchM (do
    M.tell (.gmailModify messageId ["UNREAD"] [])
    M.ofExcept (w.gmailModifyApi messageId ["UNREAD"] []))
    (fun e => M.throwM ("Failed to mark message as unread: " ++ e))

/-! ## Docs service (`docs-api.ts`) -/

structure DocFile where
  id : String
  name : String
  modifiedTime : String
deriving Repr, DecidableEq

def getDocument (w : World) (documentId : String) : M GoogleDoc :=
  M.tryCatchM (do
    M.tell (.docsGet documentId)
    M.ofExcept (w.docsGetApi documentId))
    (fun e => M.throwM ("Failed to get document: " ++ e))

/-- `getDocumentEndIndex`: 1 when there is no content array; else the last
element's `endIndex` (2 when missing or zero) minus one, to insert before the
trailing implicit newline. -/
def getDocumentEndIndex (doc : GoogleDoc) : Int :=
  match doc.body.bind (fun b => b.content) with
  | none => 1
  | some content =>
    match content.getLast? with
    | some lastElement => jsOrNum lastElement.endIndex 2 - 1
    | none => jsOrNum none 2 - 1

/-- `extractTextFromDoc`: concatenate the text runs of every paragraph,
ignoring non-paragraph structural elements. -/
def extractTextFromDoc (doc : GoogleDoc) : String :=
  match doc.body.bind (fun b => b.content) with
  | none => ""
  | some content =>
    String.join (content.map (fun element =>
      String.join (((element.paragraph.bind (fun p => p.elements)).getD []).map
        (fun paragraphElement =>
          ((paragraphElement.textRun.bind (fun t => t.content)).getD "")))))

def appendText (w : World) (documentId : String) (text : String) : M Unit :=
  M.tryCatchM (do
    let doc ← getDocument w documentId
    let endIndex := getDocumentEndIndex doc
    M.tell (.docsBatchUpdate documentId (.insertText endIndex text))
    M.ofExcept (w.docsBatchUpdateApi documentId (.insertText endIndex text)) >>= fun _ =>
      M.pure ())
    (fun e => M.throwM ("Failed to append text: " ++ e))

def replaceText (w : World) (documentId : String) (searchText : String)
    (replTextArg : String) (matchCase : Bool) : M Int :=
  M.tryCatchM (do
    M.tell (.docsBatchUpdate documentId (.replaceAllText searchText replTextArg matchCase))
    let response ← M.ofExcept
      (w.docsBatchUpdateApi documentId (.replaceAllText searchText replTextArg matchCase))
    M.pure (jsOrNum response.firstReplaceOccurrences 0))
    (fun e => M.throwM ("Failed to replace text: " ++ e))

def createDocument (w : World) (params : CreateDocParams) : M GoogleDoc :=
  M.tryCatchM (do
    M.tell (.docsCreate params.title)
    let doc ← M.ofExcept (w.docsCreateApi params.title)
    let documentId := doc.documentId
    match params.content with
    | some content =>
      if content ≠ "" ∧ documentId ≠ "" then do
        appendText w documentId content
        M.pure doc
      else M.pure doc
    | none => M.pure doc)
    (fun e => M.throwM ("Failed to create document: " ++ e))

def listDocsQ : String := "mimeType='application/vnd.google-apps.document'"

def listDocuments (w : World) (maxResults : Int) : M (List DocFile) :=
  M.tryCatchM (do
    M.tell (.driveList listDocsQ maxResults)
    let data ← M.ofExcept (w.driveListApi listDocsQ maxResults)
    M.pure ((data.getD []).map (fun file =>
      { id := jsOr file.id ""
        name := jsOr file.name "Untitled"
        modifiedTime := jsOr file.modifiedTime "" })))
    (fun e => M.throwM ("Failed to list documents: " ++ e))

/-- `query.replace(/'/g, "\\'")`. -/
def escapeQuotes (s : String) : String :=
  String.join (s.data.map (fun c => if c = '\'' then "\\'" else String.mk [c]))

def searchDocsQ (query : String) : String :=
  "mimeType='application/vnd.google-apps.document' and name contains '" ++
    escapeQuotes query ++ "'"

def searchDocuments (w : World) (query : String) (maxResults : Int) : M (List DocFile) :=
  M.tryCatchM (do
    M.tell (.driveList (searchDocsQ query) maxResults)
    let data ← M.ofExcept (w.driveListApi (searchDocsQ query) maxResults)
    M.pure ((data.getD []).map (fun file =>
      { id := jsOr file.id ""
        name := jsOr file.name "Untitled"
        modifiedTime := jsOr file.modifiedTime "" })))
    (fun e => M.throwM ("Failed to search documents: " ++ e))

def getDocumentText (w : World) (documentId : String) : M String :=
  M.tryCatchM (do
    let doc ← getDocument w documentId
    M.pure (extractTextFromDoc doc))
    (fun e => M.throwM ("Failed to get document text: " ++ e))

/-! ## Tool handlers (`tools/handlers.ts`) -/

/-- Template interpolation of `string | undefined` (`undefined` prints). -/
def interpOptStr (x : Option String) : String := x.getD "undefined"

/-- `s || d` on plain strings. -/
def jsOrStr (s d : String) : String := if s = "" then d else s

def handleAuthStatus (w : World) : M ToolResponse :=
  M.pure (createSuccessResponse (getAuthStatus w.fs))

def handleAuthenticate (w : World) : M ToolResponse :=
  match authenticateFn w with
  | .ok a => do
    M.setCache ⟨some a, some a, some a, some a⟩
    M.pure (createSuccessResponse
      "✅ Successfully authenticated with Google!\n\nYou can now use Google Meet, Calendar, Gmail, and Docs tools.")
  | .error e => M.pure (createErrorResponse ("❌ Authentication failed: " ++ e))

def handleListConferences (w : World) (args : JValue) : M ToolResponse :=
  withMeetAuth w (fun _service => do
    let v ← validateInputM parseListConferences args
    let conferences ← listConferenceRecords w v.limit
    if conferences.length = 0 then
      M.pure (createSuccessResponse
        ("No conference records found.\n\n" ++
         "Note: Conference records are only available for meetings where:\n" ++
         "- Recording or transcription was enabled\n" ++
         "- The meeting occurred recently (records expire after some time)"))
    else
      let formatted := String.intercalate "\n\n" (conferences.enum.map (fun p =>
        "**" ++ toString (p.1 + 1) ++ ". Conference**\n- Name: `" ++ p.2.name ++
        "`\n- Start: " ++ formatDate w.localeDate p.2.startTime ++
        "\n- End: " ++ formatDate w.localeDate p.2.endTime ++
        "\n- Duration: " ++ formatDuration w.epochMs p.2.startTime p.2.endTime))
      M.pure (createSuccessResponse
        ("**Recent Conference Records:**\n\n" ++ formatted ++ "\n\n---\n" ++
         "Use `list_recordings` or `list_transcripts` with a conference name to get artifacts.")))

def handleGetConference (w : World) (args : JValue) : M ToolResponse :=
  withMeetAuth w (fun _service => do
    let v ← validateInputM (parseOneString "name" "Conference name is required") args
    let conf ← getConferenceRecord w v.name
    M.pure (createSuccessResponse
      ("**Conference Details:**\n\n" ++
       "- Name: `" ++ conf.name ++ "`\n" ++
       "- Start: " ++ formatDate w.localeDate conf.startTime ++ "\n" ++
       "- End: " ++ formatDate w.localeDate conf.endTime ++ "\n" ++
       "- Duration: " ++ formatDuration w.epochMs conf.startTime conf.endTime ++ "\n" ++
       "- Space: " ++ jsOr conf.space "N/A")))

def handleListParticipants (w : World) (args : JValue) : M ToolResponse :=
  withMeetAuth w (fun _service => do
    let v ← validateInputM (parseOneString "conference_name" "Conference name is required") args
    let participants ← listParticipants w v.name config.defaults.participantPageSize
    if participants.length = 0 then
      M.pure (createSuccessResponse "No participants found for this conference.")
    else
      let formatted := String.intercalate "\n\n" (participants.enum.map (fun p =>
        toString (p.1 + 1) ++ ". **" ++ getParticipantDisplayName p.2 ++
        "**\n   - Joined: " ++ formatDate w.localeDate p.2.earliestStartTime ++
        "\n   - Left: " ++ formatDate w.localeDate p.2.latestEndTime))
      M.pure (createSuccessResponse
        ("**Participants (" ++ toString participants.length ++ "):**\n\n" ++ formatted)))

def handleListRecordings (w : World) (args : JValue) : M ToolResponse :=
  withMeetAuth w (fun _service => do
    let v ← validateInputM (parseOneString "conference_name" "Conference name is required") args
    let recordings ← listRecordings w v.name
    if recordings.length = 0 then
      M.pure (createSuccessResponse
        ("No recordings found for this conference.\n\n" ++
         "Note: Recordings must be enabled in the meeting for them to be available."))
    else
      let formatted := String.intercalate "\n\n" (recordings.enum.map (fun p =>
        "**" ++ toString (p.1 + 1) ++ ". Recording**\n- Name: `" ++ p.2.name ++
        "`\n- State: " ++ jsOr p.2.state "N/A" ++
        "\n- Start: " ++ formatDate w.localeDate p.2.startTime ++
        "\n- End: " ++ formatDate w.localeDate p.2.endTime ++
        "\n- Drive Link: " ++ jsOr p.2.driveExportUri "N/A"))
      M.pure (createSuccessResponse ("**Recordings:**\n\n" ++ formatted)))

def handleListTranscripts (w : World) (args : JValue) : M ToolResponse :=
  withMeetAuth w (fun _service => do
    let v ← validateInputM (parseOneString "conference_name" "Conference name is required") args
    let transcripts ← listTranscripts w v.name
    if transcripts.length = 0 then
      M.pure (createSuccessResponse
        ("No transcripts found for this conference.\n\n" ++
         "Note: Transcription must be enabled in the meeting for transcripts to be available."))
    else
      let formatted := String.intercalate "\n\n" (transcripts.enum.map (fun p =>
        "**" ++ toString (p.1 + 1) ++ ". Transcript**\n- Name: `" ++ p.2.name ++
        "`\n- State: " ++ jsOr p.2.state "N/A" ++
        "\n- Start: " ++ formatDate w.localeDate p.2.startTime ++
        "\n- End: " ++ formatDate w.localeDate p.2.endTime ++
        "\n- Docs Link: " ++ jsOr p.2.docsExportUri "N/A"))
      M.pure (createSuccessResponse
        ("**Transcripts:**\n\n" ++ formatted ++ "\n\n---\n" ++
         "Use `get_transcript_text` with a transcript name to get the actual text.")))

def handleGetTranscriptText (w : World) (args : JValue) : M ToolResponse :=
  withMeetAuth w (fun _service => do
    let v ← validateInputM (parseOneString "transcript_name" "Transcript name is required") args
    let entries ← listTranscriptEntries w v.name config.defaults.transcriptPageSize
    if entries.length = 0 then
      M.pure (createSuccessResponse "No transcript entries found.")
    else
      let formatted := String.intercalate "\n" (entries.map (fun entry =>
        "[" ++ formatDate w.localeDate entry.startTime ++ "] " ++
        jsOr entry.participant "Unknown" ++ ": " ++ interpOptStr entry.text))
      M.pure (createSuccessResponse ("**Transcript:**\n\n" ++ formatted)))

def handleCreateMeeting (w : World) : M ToolResponse :=
  withMeetAuth w (fun _service => do
    let space ← createSpace w
    M.pure (createSuccessResponse
      ("✅ **Meeting Created!**\n\n" ++
       "- Meeting URI: " ++ jsOr space.meetingUri "N/A" ++ "\n" ++
       "- Meeting Code: " ++ jsOr space.meetingCode "N/A" ++ "\n" ++
       "- Resource Name: `" ++ space.name ++ "`")))

def handleListUpcomingMeetings (w : World) (args : JValue) : M ToolResponse :=
  withMeetAuth w (fun _service => do
    let v ← validateInputM parseListMeetings args
    let meetings ← listUpcomingMeetings w v.limit
    if meetings.length = 0 then
      M.pure (createSuccessResponse "No upcoming Google Meet meetings found in your calendar.")
    else
      let formatted := String.intercalate "\n\n" (meetings.enum.map (fun p =>
        "**" ++ toString (p.1 + 1) ++ ". " ++ jsOr p.2.summary "Untitled" ++
        "**\n- When: " ++ formatDate w.localeDate
          (jsOrOpt (p.2.start.bind (fun t => t.dateTime)) (p.2.start.bind (fun t => t.date))) ++
        "\n- Meet Link: " ++ getMeetingLink p.2))
      M.pure (createSuccessResponse ("**Upcoming Google Meet Meetings:**\n\n" ++ formatted)))

def handleListPastMeetings (w : World) (args : JValue) : M ToolResponse :=
  withMeetAuth w (fun _service => do
    let v ← validateInputM parseListMeetings args
    let meetings ← listPastMeetings w v.limit
    if meetings.length = 0 then
      M.pure (createSuccessResponse
        "No past Google Meet meetings found in your calendar (last 30 days).")
    else
      let formatted := String.intercalate "\n\n" (meetings.enum.map (fun p =>
        "**" ++ toString (p.1 + 1) ++ ". " ++ jsOr p.2.summary "Untitled" ++
        "**\n- When: " ++ formatDate w.localeDate
          (jsOrOpt (p.2.start.bind (fun t => t.dateTime)) (p.2.start.bind (fun t => t.date))) ++
        "\n- Meet Link: " ++ getMeetingLink p.2))
      M.pure (createSuccessResponse
        ("**Past Google Meet Meetings (Last 30 Days):**\n\n" ++ formatted)))

def handleSummarizeTranscript (w : World) (args : JValue) : M ToolResponse :=
  withMeetAuth w (fun _service => do
    let v ← validateInputM (parseOneString "transcript_name" "Transcript name is required") args
    let entries ← listTranscriptEntries w v.name config.defaults.transcriptPageSize
    if entries.length = 0 then
      M.pure (createSuccessResponse "No transcript entries found to summarize.")
    else
      let transcriptText := String.intercalate "\n" (entries.map (fun entry =>
        jsOr entry.participant "Speaker" ++ ": " ++ interpOptStr entry.text))
      let totalDuration :=
        match entries.head?, entries.getLast? with
        | some first, some last => formatDuration w.epochMs first.startTime last.endTime
        | _, _ => "N/A"
      M.pure (createSuccessResponse
        ("Here is the meeting transcript to summarize:\n\n" ++
         "---\n**TRANSCRIPT** (Duration: " ++ totalDuration ++ ", Entries: " ++
           toString entries.length ++ ")\n---\n\n" ++
         transcriptText ++ "\n\n" ++
         "---\n\n" ++
         "Please provide a comprehensive meeting summary including:\n\n" ++
         "1. **Meeting Overview**: Brief description of what the meeting was about\n\n" ++
         "2. **Key Discussion Points**: Main topics that were discussed\n\n" ++
         "3. **Decisions Made**: Any decisions or conclusions reached\n\n" ++
         "4. **Action Items**: Tasks or follow-ups mentioned (with assignees if mentioned)\n\n" ++
         "5. **Important Quotes**: Any notable statements or commitments\n\n" ++
         "6. **Next Steps**: What should happen after this meeting")))

def handleCreateCalendarEvent (w : World) (args : JValue) : M ToolResponse :=
  withMeetAuth w (fun _service => do
    let params ← validateInputM parseCreateCalendarEvent args
    let event ← createCalendarEvent w params
    let attendeesList :=
      match event.attendees with
      | some l =>
        if l.length ≠ 0 then String.intercalate "\n" (l.map (fun a => "  - " ++ a.email))
        else "None"
      | none => "None"
    let startTime :=
      if jsTruthy event.start.dateTime then w.localeDate (event.start.dateTime.getD "")
      else jsOr event.start.date "N/A"
    M.pure (createSuccessResponse
      ("✅ **Calendar Event Created!**\n\n" ++
       "- **Title:** " ++ event.summary ++ "\n" ++
       "- **When:** " ++ startTime ++ "\n" ++
       "- **Calendar Link:** " ++ event.htmlLink ++ "\n" ++
       (if jsTruthy event.hangoutLink then
          "- **Google Meet:** " ++ event.hangoutLink.getD "" ++ "\n"
        else "") ++
       "\n**Attendees:**\n" ++ attendeesList)))

def handleGmailProfile (w : World) : M ToolResponse :=
  withGmailAuth w (fun _service => do
    let profile ← getProfile w
    M.pure (createSuccessResponse
      ("**Gmail Profile:**\n\n" ++
       "- Email: " ++ profile.emailAddress ++ "\n" ++
       "- Total Messages: " ++ w.localeNum profile.messagesTotal ++ "\n" ++
       "- Total Threads: " ++ w.localeNum profile.threadsTotal)))

def handleListEmails (w : World) (args : JValue) : M ToolResponse :=
  withGmailAuth w (fun _service => do
    let v ← validateInputM parseListEmails args
    let messages ← listMessages w none v.limit config.gmail.defaultLabels
    if messages.length = 0 then
      M.pure (createSuccessResponse "No emails found in your inbox.")
    else
      let formatted := String.intercalate "\n\n" (messages.enum.map (fun p =>
        let isUnread := if (p.2.labelIds.getD []).contains "UNREAD" then "🔵 " else ""
        "**" ++ toString (p.1 + 1) ++ ". " ++ isUnread ++
        jsOrStr (getHeader p.2 "Subject") "(No Subject)" ++
        "**\n- From: " ++ getHeader p.2 "From" ++
        "\n- Date: " ++ getHeader p.2 "Date" ++
        "\n- ID: `" ++ p.2.id ++
        "`\n- Snippet: " ++
        (match p.2.snippet with | some s => s.take 100 | none => "undefined") ++ "..."))
      M.pure (createSuccessResponse
        ("**Inbox (" ++ toString messages.length ++ " emails):**\n\n" ++ formatted)))

def handleSearchEmails (w : World) (args : JValue) : M ToolResponse :=
  withGmailAuth w (fun _service => do
    let v ← validateInputM parseSearchEmails args
    let messages ← searchEmails w v.query v.limit
    if messages.length = 0 then
      M.pure (createSuccessResponse ("No emails found matching: \"" ++ v.query ++ "\""))
    else
      let formatted := String.intercalate "\n\n" (messages.enum.map (fun p =>
        "**" ++ toString (p.1 + 1) ++ ". " ++
        jsOrStr (getHeader p.2 "Subject") "(No Subject)" ++
        "**\n- From: " ++ getHeader p.2 "From" ++
        "\n- Date: " ++ getHeader p.2 "Date" ++
        "\n- ID: `" ++ p.2.id ++ "`"))
      M.pure (createSuccessResponse
        ("**Search Results for \"" ++ v.query ++ "\" (" ++ toString messages.length ++
         " emails):**\n\n" ++ formatted)))

def handleGetEmail (w : World) (args : JValue) : M ToolResponse :=
  withGmailAuth w (fun _service => do
    let v ← validateInputM (parseOneString "message_id" "Message ID is required") args
    let message ← getMessage w v.name
    M.pure (createSuccessResponse
      ("**Email Details:**\n\n" ++
       "- **Subject:** " ++ jsOrStr (getHeader message "Subject") "(No Subject)" ++ "\n" ++
       "- **From:** " ++ getHeader message "From" ++ "\n" ++
       "- **To:** " ++ getHeader message "To" ++ "\n" ++
       "- **Date:** " ++ getHeader message "Date" ++ "\n" ++
       "- **Thread ID:** `" ++ message.threadId ++ "`\n\n" ++
       "---\n\n**Body:**\n\n" ++ getMessageBody message)))

def handleGetThread (w : World) (args : JValue) : M ToolResponse :=
  withGmailAuth w (fun _service => do
    let v ← validateInputM (parseOneString "thread_id" "Thread ID is required") args
    let thread ← getThread w v.name
    match thread.messages with
    | some (first :: rest) =>
      let msgs := first :: rest
      let formatted := String.intercalate "\n\n---\n\n" (msgs.enum.map (fun p =>
        "**Message " ++ toString (p.1 + 1) ++ "**\n- From: " ++ getHeader p.2 "From" ++
        "\n- Date: " ++ getHeader p.2 "Date" ++ "\n\n" ++ getMessageBody p.2))
      M.pure (createSuccessResponse
        ("**Thread: " ++ jsOrStr (getHeader first "Subject") "(No Subject)" ++
         "** (" ++ toString msgs.length ++ " messages)\n\n---\n\n" ++ formatted))
    | _ => M.pure (createSuccessResponse "No messages found in this thread."))

def handleSendEmail (w : World) (args : JValue) : M ToolResponse :=
  withGmailAuth w (fun _service => do
    let params ← validateInputM parseSendEmail args
    let message ← sendEmail w params
    M.pure (createSuccessResponse
      ("✅ **Email Sent Successfully!**\n\n" ++
       "- To: " ++ params.to_ ++ "\n" ++
       "- Subject: " ++ params.subject ++ "\n" ++
       "- Message ID: `" ++ message.id ++ "`")))

def handleCreateDraft (w : World) (args : JValue) : M ToolResponse :=
  withGmailAuth w (fun _service => do
    let params ← validateInputM parseSendEmail args
    let draft ← createDraft w params
    M.pure (createSuccessResponse
      ("✅ **Draft Created Successfully!**\n\n" ++
       "- To: " ++ params.to_ ++ "\n" ++
       "- Subject: " ++ params.subject ++ "\n" ++
       "- Draft ID: `" ++ draft.id ++ "`")))

def handleListLabels (w : World) : M ToolResponse :=
  withGmailAuth w (fun _service => do
    let labels ← listLabels w
    let formatted := String.intercalate "\n" (labels.map (fun label =>
      "- **" ++ label.name ++ "** (`" ++ label.id ++ "`)"))
    M.pure (createSuccessResponse ("**Gmail Labels:**\n\n" ++ formatted)))

def handleTrashEmail (w : World) (args : JValue) : M ToolResponse :=
  withGmailAuth w (fun _service => do
    let v ← validateInputM (parseOneString "message_id" "Message ID is required") args
    trashMessage w v.name
    M.pure (createSuccessResponse ("✅ Email moved to trash: `" ++ v.name ++ "`")))

def handleMarkAsRead (w : World) (args : JValue) : M ToolResponse :=
  withGmailAuth w (fun _service => do
    let v ← validateInputM (parseOneString "message_id" "Message ID is required") args
    markAsRead w v.name
    M.pure (createSuccessResponse ("✅ Email marked as read: `" ++ v.name ++ "`")))

def handleMarkAsUnread (w : World) (args : JValue) : M ToolResponse :=
  withGmailAuth w (fun _service => do
    let v ← validateInputM (parseOneString "message_id" "Message ID is required") args
    markAsUnread w v.name
    M.pure (createSuccessResponse ("✅ Email marked as unread: `" ++ v.name ++ "`")))

def handleListDocs (w : World) (args : JValue) : M ToolResponse :=
  withDocsAuth w (fun _service => do
    let v ← validateInputM parseListDocs args
    let docs ← listDocuments w v.limit
    if docs.length = 0 then
      M.pure (createSuccessResponse "No Google Docs found in your Drive.")
    else
      let formatted := String.intercalate "\n\n" (docs.enum.map (fun p =>
        "**" ++ toString (p.1 + 1) ++ ". " ++ p.2.name ++
        "**\n- ID: `" ++ p.2.id ++
        "`\n- Modified: " ++ w.localeDate p.2.modifiedTime ++
        "\n- URL: " ++ getDocumentUrl p.2.id))
      M.pure (createSuccessResponse
        ("**Recent Google Docs (" ++ toString docs.length ++ "):**\n\n" ++ formatted)))

def handleSearchDocs (w : World) (args : JValue) : M ToolResponse :=
  withDocsAuth w (fun _service => do
    let v ← validateInputM parseSearchDocs args
    let docs ← searchDocuments w v.query v.limit
    if docs.length = 0 then
      M.pure (createSuccessResponse ("No documents found matching: \"" ++ v.query ++ "\""))
    else
      let formatted := String.intercalate "\n\n" (docs.enum.map (fun p =>
        "**" ++ toString (p.1 + 1) ++ ". " ++ p.2.name ++
        "**\n- ID: `" ++ p.2.id ++
        "`\n- Modified: " ++ w.localeDate p.2.modifiedTime ++
        "\n- URL: " ++ getDocumentUrl p.2.id))
      M.pure (createSuccessResponse
        ("**Search Results for \"" ++ v.query ++ "\" (" ++ toString docs.length ++
         " documents):**\n\n" ++ formatted)))

def handleGetDoc (w : World) (args : JValue) : M ToolResponse :=
  withDocsAuth w (fun _service => do
    let v ← validateInputM (parseOneString "document_id" "Document ID is required") args
    let doc ← getDocument w v.name
    let text ← getDocumentText w v.name
    M.pure (createSuccessResponse
      ("**Document: " ++ doc.title ++ "**\n\n" ++
       "- ID: `" ++ doc.documentId ++ "`\n" ++
       "- URL: " ++ getDocumentUrl doc.documentId ++ "\n\n" ++
       "---\n\n**Content:**\n\n" ++ jsOrStr text "(Empty document)")))

def handleCreateDoc (w : World) (args : JValue) : M ToolResponse :=
  withDocsAuth w (fun _service => do
    let v ← validateInputM parseCreateDoc args
    let doc ← createDocument w ⟨v.title, v.content⟩
    M.pure (createSuccessResponse
      ("✅ **Document Created!**\n\n" ++
       "- Title: " ++ doc.title ++ "\n" ++
       "- ID: `" ++ doc.documentId ++ "`\n" ++
       "- URL: " ++ getDocumentUrl doc.documentId)))

def handleAppendToDoc (w : World) (args : JValue) : M ToolResponse :=
  withDocsAuth w (fun _service => do
    let v ← validateInputM parseAppendToDoc args
    appendText w v.document_id v.text
    M.pure (createSuccessResponse
      ("✅ Text appended to document!\n\n" ++
       "- Document ID: `" ++ v.document_id ++ "`\n" ++
       "- URL: " ++ getDocumentUrl v.document_id)))

def handleReplaceInDoc (w : World) (args : JValue) : M ToolResponse :=
  withDocsAuth w (fun _service => do
    let v ← validateInputM parseReplaceInDoc args
    let count ← replaceText w v.document_id v.search_text v.replace_text v.match_case
    M.pure (createSuccessResponse
      ("✅ Text replaced in document!\n\n" ++
       "- Occurrences replaced: " ++ toString count ++ "\n" ++
       "- Search: \"" ++ v.search_text ++ "\"\n" ++
       "- Replace: \"" ++ v.replace_text ++ "\"\n" ++
       "- Document: " ++ getDocumentUrl v.document_id)))

/-! ## Dispatcher (`handleToolCall`) and the protocol backstop (`index.ts`) -/

def handleToolCall (w : World) (name : String) (args : JValue) : M ToolResponse :=
  match name with
  | "auth_status" => handleAuthStatus w
  | "authenticate" => handleAuthenticate w
  | "list_conferences" => handleListConferences w args
  | "get_conference" => handleGetConference w args
  | "list_participants" => handleListParticipants w args
  | "list_recordings" => handleListRecordings w args
  | "list_transcripts" => handleListTranscripts w args
  | "get_transcript_text" => handleGetTranscriptText w args
  | "create_meeting" => handleCreateMeeting w
  | "list_upcoming_meetings" => handleListUpcomingMeetings w args
  | "list_past_meetings" => handleListPastMeetings w args
  | "summarize_transcript" => handleSummarizeTranscript w args
  | "create_calendar_event" => handleCreateCalendarEvent w args
  | "gmail_profile" => handleGmailProfile w
  | "list_emails" => handleListEmails w args
  | "search_emails" => handleSearchEmails w args
  | "get_email" => handleGetEmail w args
  | "get_thread" => handleGetThread w args
  | "send_email" => handleSendEmail w args
  | "create_draft" => handleCreateDraft w args
  | "list_labels" => handleListLabels w
  | "trash_email" => handleTrashEmail w args
  | "mark_as_read" => handleMarkAsRead w args
  | "mark_as_unread" => handleMarkAsUnread w args
  | "list_docs" => handleListDocs w args
  | "search_docs" => handleSearchDocs w args
  | "get_doc" => handleGetDoc w args
  | "create_doc" => handleCreateDoc w args
  | "append_to_doc" => handleAppendToDoc w args
  | "replace_in_doc" => handleReplaceInDoc w args
  | _ => M.pure (createErrorResponse ("Unknown tool: " ++ name))

/-- The `CallToolRequestSchema` handler of `index.ts`: any exception escaping
`handleToolCall` becomes a generic `Error: ...` error envelope. -/
def serverCallTool (w : World) (name : String) (args : JValue) (st : St) :
    ToolResponse × St :=
  match handleToolCall w name args st with
  | (.ok r, st2) => (r, st2)
  | (.error e, st2) => (createErrorResponse ("Error: " ++ e), st2)

/-! ## Proof machinery: the monad's run equations and the one-segment invariant -/

theorem bind_eq (x : M α) (f : α → M β) : x >>= f = M.bind x f := rfl

theorem pure_eq (a : α) : (Pure.pure a : M α) = M.pure a := rfl

/-- Every `.ok` outcome of this computation is an envelope with exactly one
text segment. -/
def AlwaysOne (m : M ToolResponse) : Prop :=
  ∀ st r st2, m st = (.ok r, st2) → r.content.length = 1

theorem alwaysOne_pure (r : ToolResponse) (h : r.content.length = 1) :
    AlwaysOne (M.pure r) := by
  intro st r2 st2 hr
  unfold M.pure at hr
  cases hr
  exact h

theorem alwaysOne_throw (e : String) : AlwaysOne (M.throwM e) := by
  intro st r st2 hr
  unfold M.throwM at hr
  cases hr

theorem alwaysOne_bind {x : M α} {f : α → M ToolResponse}
    (hf : ∀ a, AlwaysOne (f a)) : AlwaysOne (x >>= f) := by
  intro st r st2 h
  rw [bind_eq] at h
  unfold M.bind at h
  rcases hx : x st with ⟨res, st1⟩
  rw [hx] at h
  cases res with
  | ok a => exact hf a st1 r st2 h
  | error e => simp at h

theorem alwaysOne_tryCatch {x : M ToolResponse} {h : String → M ToolResponse}
    (hx : AlwaysOne x) (hh : ∀ e, AlwaysOne (h e)) : AlwaysOne (M.tryCatchM x h) := by
  intro st r st2 hr
  unfold M.tryCatchM at hr
  rcases hrun : x st with ⟨res, st1⟩
  rw [hrun] at hr
  cases res with
  | ok a =>
    have ha : r = a := by
      injection hr with h1 h2
      injection h1 with h1
      exact h1.symm
    subst ha
    exact hx st r st1 hrun
  | error e => exact hh e st1 r st2 hr

theorem alwaysOne_ite {c : Prop} [Decidable c] {x y : M ToolResponse}
    (hx : AlwaysOne x) (hy : AlwaysOne y) : AlwaysOne (if c then x else y) := by
  by_cases h : c
  · simpa [h] using hx
  · simpa [h] using hy

theorem alwaysOne_withMeetAuth (w : World) {h : Nat → M ToolResponse}
    (hh : ∀ s, AlwaysOne (h s)) : AlwaysOne (withMeetAuth w h) := by
  unfold withMeetAuth
  refine alwaysOne_tryCatch (alwaysOne_bind hh) (fun e => ?_)
  exact alwaysOne_ite (alwaysOne_pure _ rfl) (alwaysOne_throw e)

theorem alwaysOne_withGmailAuth (w : World) {h : Nat → M ToolResponse}
    (hh : ∀ s, AlwaysOne (h s)) : AlwaysOne (withGmailAuth w h) := by
  unfold withGmailAuth
  refine alwaysOne_tryCatch (alwaysOne_bind hh) (fun e => ?_)
  exact alwaysOne_ite (alwaysOne_pure _ rfl) (alwaysOne_throw e)

theorem alwaysOne_withDocsAuth (w : World) {h : Nat → M ToolResponse}
    (hh : ∀ s, AlwaysOne (h s)) : AlwaysOne (withDocsAuth w h) := by
  unfold withDocsAuth
  refine alwaysOne_tryCatch (alwaysOne_bind hh) (fun e => ?_)
  exact alwaysOne_ite (alwaysOne_pure _ rfl) (alwaysOne_throw e)

theorem alwaysOne_handleAuthStatus (w : World) : AlwaysOne (handleAuthStatus w) :=
  alwaysOne_pure _ rfl

theorem alwaysOne_handleAuthenticate (w : World) : AlwaysOne (handleAuthenticate w) := by
  unfold handleAuthenticate
  cases authenticateFn w with
  | ok a => exact alwaysOne_bind (fun _ => alwaysOne_pure _ rfl)
  | error e => exact alwaysOne_pure _ rfl

theorem alwaysOne_handleListConferences (w : World) (args : JValue) :
    AlwaysOne (handleListConferences w args) := by
  unfold handleListConferences
  refine alwaysOne_withMeetAuth w (fun s => ?_)
  refine alwaysOne_bind (fun v => alwaysOne_bind (fun conferences => ?_))
  exact alwaysOne_ite (alwaysOne_pure _ rfl) (alwaysOne_pure _ rfl)

theorem alwaysOne_handleGetConference (w : World) (args : JValue) :
    AlwaysOne (handleGetConference w args) := by
  unfold handleGetConference
  refine alwaysOne_withMeetAuth w (fun s => ?_)
  exact alwaysOne_bind (fun v => alwaysOne_bind (fun conf => alwaysOne_pure _ rfl))

theorem alwaysOne_handleListParticipants (w : World) (args : JValue) :
    AlwaysOne (handleListParticipants w args) := by
  unfold handleListParticipants
  refine alwaysOne_withMeetAuth w (fun s => ?_)
  refine alwaysOne_bind (fun v => alwaysOne_bind (fun ps => ?_))
  exact alwaysOne_ite (alwaysOne_pure _ rfl) (alwaysOne_pure _ rfl)

theorem alwaysOne_handleListRecordings (w : World) (args : JValue) :
    AlwaysOne (handleListRecordings w args) := by
  unfold handleListRecordings
  refine alwaysOne_withMeetAuth w (fun s => ?_)
  refine alwaysOne_bind (fun v => alwaysOne_bind (fun rs => ?_))
  exact alwaysOne_ite (alwaysOne_pure _ rfl) (alwaysOne_pure _ rfl)

theorem alwaysOne_handleListTranscripts (w : World) (args : JValue) :
    AlwaysOne (handleListTranscripts w args) := by
  unfold handleListTranscripts
  refine alwaysOne_withMeetAuth w (fun s => ?_)
  refine alwaysOne_bind (fun v => alwaysOne_bind (fun ts => ?_))
  exact alwaysOne_ite (alwaysOne_pure _ rfl) (alwaysOne_pure _ rfl)

theorem alwaysOne_handleGetTranscriptText (w : World) (args : JValue) :
    AlwaysOne (handleGetTranscriptText w args) := by
  unfold handleGetTranscriptText
  refine alwaysOne_withMeetAuth w (fun s => ?_)
  refine alwaysOne_bind (fun v => alwaysOne_bind (fun es => ?_))
  exact alwaysOne_ite (alwaysOne_pure _ rfl) (alwaysOne_pure _ rfl)

theorem alwaysOne_handleCreateMeeting (w : World) : AlwaysOne (handleCreateMeeting w) := by
  unfold handleCreateMeeting
  refine alwaysOne_withMeetAuth w (fun s => ?_)
  exact alwaysOne_bind (fun space => alwaysOne_pure _ rfl)

theorem alwaysOne_handleListUpcomingMeetings (w : World) (args : JValue) :
    AlwaysOne (handleListUpcomingMeetings w args) := by
  unfold handleListUpcomingMeetings
  refine alwaysOne_withMeetAuth w (fun s => ?_)
  refine alwaysOne_bind (fun v => alwaysOne_bind (fun ms => ?_))
  exact alwaysOne_ite (alwaysOne_pure _ rfl) (alwaysOne_pure _ rfl)

theorem alwaysOne_handleListPastMeetings (w : World) (args : JValue) :
    AlwaysOne (handleListPastMeetings w args) := by
  unfold handleListPastMeetings
  refine alwaysOne_withMeetAuth w (fun s => ?_)
  refine alwaysOne_bind (fun v => alwaysOne_bind (fun ms => ?_))
  exact alwaysOne_ite (alwaysOne_pure _ rfl) (alwaysOne_pure _ rfl)

theorem alwaysOne_handleSummarizeTranscript (w : World) (args : JValue) :
    AlwaysOne (handleSummarizeTranscript w args) := by
  unfold handleSummarizeTranscript
  refine alwaysOne_withMeetAuth w (fun s => ?_)
  refine alwaysOne_bind (fun v => alwaysOne_bind (fun es => ?_))
  exact alwaysOne_ite (alwaysOne_pure _ rfl) (alwaysOne_pure _ rfl)

theorem alwaysOne_handleCreateCalendarEvent (w : World) (args : JValue) :
    AlwaysOne (handleCreateCalendarEvent w args) := by
  unfold handleCreateCalendarEvent
  refine alwaysOne_withMeetAuth w (fun s => ?_)
  exact alwaysOne_bind (fun v => alwaysOne_bind (fun ev => alwaysOne_pure _ rfl))

theorem alwaysOne_handleGmailProfile (w : World) : AlwaysOne (handleGmailProfile w) := by
  unfold handleGmailProfile
  refine alwaysOne_withGmailAuth w (fun s => ?_)
  exact alwaysOne_bind (fun p => alwaysOne_pure _ rfl)

theorem alwaysOne_handleListEmails (w : World) (args : JValue) :
    AlwaysOne (handleListEmails w args) := by
  unfold handleListEmails
  refine alwaysOne_withGmailAuth w (fun s => ?_)
  refine alwaysOne_bind (fun v => alwaysOne_bind (fun ms => ?_))
  exact alwaysOne_ite (alwaysOne_pure _ rfl) (alwaysOne_pure _ rfl)

theorem alwaysOne_handleSearchEmails (w : World) (args : JValue) :
    AlwaysOne (handleSearchEmails w args) := by
  unfold handleSearchEmails
  refine alwaysOne_withGmailAuth w (fun s => ?_)
  refine alwaysOne_bind (fun v => alwaysOne_bind (fun ms => ?_))
  exact alwaysOne_ite (alwaysOne_pure _ rfl) (alwaysOne_pure _ rfl)

theorem alwaysOne_handleGetEmail (w : World) (args : JValue) :
    AlwaysOne (handleGetEmail w args) := by
  unfold handleGetEmail
  refine alwaysOne_withGmailAuth w (fun s => ?_)
  exact alwaysOne_bind (fun v => alwaysOne_bind (fun msg => alwaysOne_pure _ rfl))

theorem alwaysOne_handleGetThread (w : World) (args : JValue) :
    AlwaysOne (handleGetThread w args) := by
  unfold handleGetThread
  refine alwaysOne_withGmailAuth w (fun s => ?_)
  refine alwaysOne_bind (fun v => alwaysOne_bind (fun thread => ?_))
  rcases thread.messages with _ | ⟨_ | ⟨first, rest⟩⟩
  · exact alwaysOne_pure _ rfl
  · exact alwaysOne_pure _ rfl
  · exact alwaysOne_pure _ rfl

theorem alwaysOne_handleSendEmail (w : World) (args : JValue) :
    AlwaysOne (handleSendEmail w args) := by
  unfold handleSendEmail
  refine alwaysOne_withGmailAuth w (fun s => ?_)
  exact alwaysOne_bind (fun v => alwaysOne_bind (fun msg => alwaysOne_pure _ rfl))

theorem alwaysOne_handleCreateDraft (w : World) (args : JValue) :
    AlwaysOne (handleCreateDraft w args) := by
  unfold handleCreateDraft
  refine alwaysOne_withGmailAuth w (fun s => ?_)
  exact alwaysOne_bind (fun v => alwaysOne_bind (fun d => alwaysOne_pure _ rfl))

theorem alwaysOne_handleListLabels (w : World) : AlwaysOne (handleListLabels w) := by
  unfold handleListLabels
  refine alwaysOne_withGmailAuth w (fun s => ?_)
  exact alwaysOne_bind (fun ls => alwaysOne_pure _ rfl)

theorem alwaysOne_handleTrashEmail (w : World) (args : JValue) :
    AlwaysOne (handleTrashEmail w args) := by
  unfold handleTrashEmail
  refine alwaysOne_withGmailAuth w (fun s => ?_)
  exact alwaysOne_bind (fun v => alwaysOne_bind (fun u => alwaysOne_pure _ rfl))

theorem alwaysOne_handleMarkAsRead (w : World) (args : JValue) :
    AlwaysOne (handleMarkAsRead w args) := by
  unfold handleMarkAsRead
  refine alwaysOne_withGmailAuth w (fun s => ?_)
  exact alwaysOne_bind (fun v => alwaysOne_bind (fun u => alwaysOne_pure _ rfl))

theorem alwaysOne_handleMarkAsUnread (w : World) (args : JValue) :
    AlwaysOne (handleMarkAsUnread w args) := by
  unfold handleMarkAsUnread
  refine alwaysOne_withGmailAuth w (fun s => ?_)
  exact alwaysOne_bind (fun v => alwaysOne_bind (fun u => alwaysOne_pure _ rfl))

theorem alwaysOne_handleListDocs (w : World) (args : JValue) :
    AlwaysOne (handleListDocs w args) := by
  unfold handleListDocs
  refine alwaysOne_withDocsAuth w (fun s => ?_)
  refine alwaysOne_bind (fun v => alwaysOne_bind (fun ds => ?_))
  exact alwaysOne_ite (alwaysOne_pure _ rfl) (alwaysOne_pure _ rfl)

theorem alwaysOne_handleSearchDocs (w : World) (args : JValue) :
    AlwaysOne (handleSearchDocs w args) := by
  unfold handleSearchDocs
  refine alwaysOne_withDocsAuth w (fun s => ?_)
  refine alwaysOne_bind (fun v => alwaysOne_bind (fun ds => ?_))
  exact alwaysOne_ite (alwaysOne_pure _ rfl) (alwaysOne_pure _ rfl)

theorem alwaysOne_handleGetDoc (w : World) (args : JValue) :
    AlwaysOne (handleGetDoc w args) := by
  unfold handleGetDoc
  refine alwaysOne_withDocsAuth w (fun s => ?_)
  exact alwaysOne_bind (fun v => alwaysOne_bind (fun d =>
    alwaysOne_bind (fun t => alwaysOne_pure _ rfl)))

theorem alwaysOne_handleCreateDoc (w : World) (args : JValue) :
    AlwaysOne (handleCreateDoc w args) := by
  unfold handleCreateDoc
  refine alwaysOne_withDocsAuth w (fun s => ?_)
  exact alwaysOne_bind (fun v => alwaysOne_bind (fun d => alwaysOne_pure _ rfl))

theorem alwaysOne_handleAppendToDoc (w : World) (args : JValue) :
    AlwaysOne (handleAppendToDoc w args) := by
  unfold handleAppendToDoc
  refine alwaysOne_withDocsAuth w (fun s => ?_)
  exact alwaysOne_bind (fun v => alwaysOne_bind (fun u => alwaysOne_pure _ rfl))

theorem alwaysOne_handleReplaceInDoc (w : World) (args : JValue) :
    AlwaysOne (handleReplaceInDoc w args) := by
  unfold handleReplaceInDoc
  refine alwaysOne_withDocsAuth w (fun s => ?_)
  exact alwaysOne_bind (fun v => alwaysOne_bind (fun count => alwaysOne_pure _ rfl))

theorem alwaysOne_handleToolCall (w : World) (name : String) (args : JValue) :
    AlwaysOne (handleToolCall w name args) := by
  unfold handleToolCall
  split
  · exact alwaysOne_handleAuthStatus w
  · exact alwaysOne_handleAuthenticate w
  · exact alwaysOne_handleListConferences w args
  · exact alwaysOne_handleGetConference w args
  · exact alwaysOne_handleListParticipants w args
  · exact alwaysOne_handleListRecordings w args
  · exact alwaysOne_handleListTranscripts w args
  · exact alwaysOne_handleGetTranscriptText w args
  · exact alwaysOne_handleCreateMeeting w
  · exact alwaysOne_handleListUpcomingMeetings w args
  · exact alwaysOne_handleListPastMeetings w args
  · exact alwaysOne_handleSummarizeTranscript w args
  · exact alwaysOne_handleCreateCalendarEvent w args
  · exact alwaysOne_handleGmailProfile w
  · exact alwaysOne_handleListEmails w args
  · exact alwaysOne_handleSearchEmails w args
  · exact alwaysOne_handleGetEmail w args
  · exact alwaysOne_handleGetThread w args
  · exact alwaysOne_handleSendEmail w args
  · exact alwaysOne_handleCreateDraft w args
  · exact alwaysOne_handleListLabels w
  · exact alwaysOne_handleTrashEmail w args
  · exact alwaysOne_handleMarkAsRead w args
  · exact alwaysOne_handleMarkAsUnread w args
  · exact alwaysOne_handleListDocs w args
  · exact alwaysOne_handleSearchDocs w args
  · exact alwaysOne_handleGetDoc w args
  · exact alwaysOne_handleCreateDoc w args
  · exact alwaysOne_handleAppendToDoc w args
  · exact alwaysOne_handleReplaceInDoc w args
  · exact alwaysOne_pure _ rfl

/-! ## Concrete worlds for witnesses -/

/-- A world with no credential source at all (no credentials file, no token)
and benign oracles. -/
def sampleWorld : World :=
  { fs := ⟨none, false⟩
    credentialsPath := "/app/credentials.json"
    saAuth := 1
    tokenAuth := 2
    oauthFlowResult := .ok 3
    localeDate := fun s => s
    localeNum := fun n => toString n
    epochMs := fun _ => 0
    nowMs := 0
    msToIso := fun _ => "1970-01-01T00:00:00.000Z"
    randSuffix := "abc123"
    confRecordsApi := fun _ => .ok none
    confRecordApi := fun n => .ok ⟨n, none, none, none, none⟩
    participantsApi := fun _ _ => .ok none
    recordingsApi := fun _ => .ok none
    transcriptsApi := fun _ => .ok none
    transcriptEntriesApi := fun _ _ => .ok none
    createSpaceApi := .ok ⟨"spaces/x", none, none⟩
    calendarListApi := fun _ _ _ => .ok none
    calendarInsertApi := fun _ => .ok ⟨none, none, none, none, none, none, none⟩
    gmailProfileApi := .ok ⟨none, none, none⟩
    gmailListApi := fun _ _ _ => .ok none
    gmailGetApi := fun i => .ok ⟨i, i, none, none, none⟩
    gmailThreadApi := fun i => .ok ⟨i, none⟩
    gmailLabelsApi := .ok none
    gmailSendApi := fun _ => .ok ⟨"m1", "t1", none, none, none⟩
    gmailDraftApi := fun _ => .ok ⟨"d1"⟩
    gmailTrashApi := fun _ => .ok ()
    gmailModifyApi := fun _ _ _ => .ok ()
    driveListApi := fun _ _ => .ok none
    docsGetApi := fun i => .ok ⟨i, "Title", none⟩
    docsCreateApi := fun t => .ok ⟨"doc1", t, none⟩
    docsBatchUpdateApi := fun _ _ => .ok ⟨none⟩ }

/-! ## Claim theorems -/

/-- C6: every envelope the dispatcher (behind the protocol backstop) returns is
mutually consistent - an error envelope carries exactly one diagnostic text
segment, a success envelope carries one or more text segments and never sets
the error flag. -/
theorem c6_envelope_consistency (w : World) (name : String) (args : JValue) (st : St) :
    ((serverCallTool w name args st).1.isError = true →
      (serverCallTool w name args st).1.content.length = 1) ∧
    ((serverCallTool w name args st).1.isError = false →
      1 ≤ (serverCallTool w name args st).1.content.length) := by
  unfold serverCallTool
  rcases hx : handleToolCall w name args st with ⟨res, st2⟩
  cases res with
  | ok r =>
    have h1 := alwaysOne_handleToolCall w name args st r st2 hx
    constructor <;> intro _ <;> simp [h1]
  | error e => constructor <;> intro h <;> simp [createErrorResponse]

/-- The tools that require authentication: every tool except `auth_status` and
`authenticate`. -/
def authenticatedToolNames : List String :=
  ["list_conferences", "get_conference", "list_participants", "list_recordings",
   "list_transcripts", "get_transcript_text", "create_meeting", "list_upcoming_meetings",
   "list_past_meetings", "summarize_transcript", "create_calendar_event",
   "gmail_profile", "list_emails", "search_emails", "get_email", "get_thread",
   "send_email", "create_draft", "list_labels", "trash_email", "mark_as_read",
   "mark_as_unread", "list_docs", "search_docs", "get_doc", "create_doc",
   "append_to_doc", "replace_in_doc"]

theorem withMeetAuth_unauth (w : World) (h : Nat → M ToolResponse) (tr : List Ev)
    (hfs : isAuthenticated w.fs = false) :
    withMeetAuth w h (Cache.empty, tr) = (.ok NOT_AUTHENTICATED_RESPONSE, (Cache.empty, tr)) := by
  simp [withMeetAuth, getMeetService, ensureAuth, M.tryCatchM, M.getCache, M.bind,
    M.pure, M.throwM, bind_eq, pure_eq, Cache.empty, hfs]

theorem withGmailAuth_unauth (w : World) (h : Nat → M ToolResponse) (tr : List Ev)
    (hfs : isAuthenticated w.fs = false) :
    withGmailAuth w h (Cache.empty, tr) = (.ok NOT_AUTHENTICATED_RESPONSE, (Cache.empty, tr)) := by
  simp [withGmailAuth, getGmailService, ensureAuth, M.tryCatchM, M.getCache, M.bind,
    M.pure, M.throwM, bind_eq, pure_eq, Cache.empty, hfs]

theorem withDocsAuth_unauth (w : World) (h : Nat → M ToolResponse) (tr : List Ev)
    (hfs : isAuthenticated w.fs = false) :
    withDocsAuth w h (Cache.empty, tr) = (.ok NOT_AUTHENTICATED_RESPONSE, (Cache.empty, tr)) := by
  simp [withDocsAuth, getDocsService, ensureAuth, M.tryCatchM, M.getCache, M.bind,
    M.pure, M.throwM, bind_eq, pure_eq, Cache.empty, hfs]

/-- C1: for every authenticated tool, with no cached credential or client and
`isAuthenticated()` false, the dispatcher returns exactly the fixed
not-authenticated envelope, leaves the state untouched, and in particular
records no validation run and no external call (the trace is unchanged),
regardless of the arguments. -/
theorem c1_not_authenticated (name : String) (hname : name ∈ authenticatedToolNames)
    (w : World) (args : JValue) (tr : List Ev)
    (hfs : isAuthenticated w.fs = false) :
    serverCallTool w name args (Cache.empty, tr) =
      (NOT_AUTHENTICATED_RESPONSE, (Cache.empty, tr)) := by
  have hs : ∀ (nm : String) (r : ToolResponse) (st2 : St),
      handleToolCall w nm args (Cache.empty, tr) = (.ok r, st2) →
      serverCallTool w nm args (Cache.empty, tr) = (r, st2) := by
    intro nm r st2 h
    unfold serverCallTool
    rw [h]
  fin_cases hname <;>
    first
      | exact hs _ _ _ (withMeetAuth_unauth w _ tr hfs)
      | exact hs _ _ _ (withGmailAuth_unauth w _ tr hfs)
      | exact hs _ _ _ (withDocsAuth_unauth w _ tr hfs)

/-- C1 witness: the concrete call `list_emails` with arguments `{limit: 7}` in
the unauthenticated sample world returns the fixed envelope. -/
theorem c1_not_authenticated_witness :
    ("list_emails" ∈ authenticatedToolNames) ∧
    serverCallTool sampleWorld "list_emails" (JValue.obj [("limit", JValue.int 7)])
      (Cache.empty, []) = (NOT_AUTHENTICATED_RESPONSE, (Cache.empty, [])) :=
  ⟨by decide,
   c1_not_authenticated "list_emails" (by decide) sampleWorld
     (JValue.obj [("limit", JValue.int 7)]) [] (by decide)⟩

/-- C8: `auth_status` is a read-only, idempotent function of the credential
and token files: two successive calls (no intervening `authenticate`, files
unchanged) return the same status text, namely the success envelope around
`getAuthStatus`, and leave the dispatcher state untouched. -/
theorem c8_auth_status_idempotent (w : World) (args args2 : JValue) (st : St) :
    (serverCallTool w "auth_status" args st).1 =
      (serverCallTool w "auth_status" args2 ((serverCallTool w "auth_status" args st).2)).1 ∧
    (serverCallTool w "auth_status" args st).1 = createSuccessResponse (getAuthStatus w.fs) ∧
    (serverCallTool w "auth_status" args st).2 = st := by
  have hdisp : ∀ (a : JValue) (s : St),
      serverCallTool w "auth_status" a s = (createSuccessResponse (getAuthStatus w.fs), s) := by
    intro a s
    rfl
  simp [hdisp]

/-- C9: if the external authentication exchange throws, `authenticate` returns
the error envelope `❌ Authentication failed: <message>` and leaves the cached
credential and all three service clients untouched; on success it replaces all
four wholesale. -/
theorem c9_authenticate_exchange (w : World) (st : St) (args : JValue) (m : String) (c : Nat) :
    (authenticateFn w = .error m →
      serverCallTool w "authenticate" args st =
        (createErrorResponse ("❌ Authentication failed: " ++ m), st)) ∧
    (authenticateFn w = .ok c →
      serverCallTool w "authenticate" args st =
        (createSuccessResponse
          "✅ Successfully authenticated with Google!\n\nYou can now use Google Meet, Calendar, Gmail, and Docs tools.",
         (⟨some c, some c, some c, some c⟩, st.2))) := by
  have hdisp : handleToolCall w "authenticate" args = handleAuthenticate w := rfl
  constructor <;> intro h <;>
    simp [serverCallTool, hdisp, handleAuthenticate, h, M.pure, M.setCache, M.bind,
      bind_eq, pure_eq]

/-- C9 witness: in the world with no credentials file the exchange throws the
instructive not-found error, the envelope wraps it, and the (empty) cache is
unchanged. -/
theorem c9_authenticate_exchange_witness :
    serverCallTool sampleWorld "authenticate" (JValue.obj []) (Cache.empty, []) =
      (createErrorResponse
        ("❌ Authentication failed: " ++ credentialsNotFoundMessage "/app/credentials.json"),
       (Cache.empty, [])) :=
  (c9_authenticate_exchange sampleWorld (Cache.empty, []) (JValue.obj [])
    (credentialsNotFoundMessage "/app/credentials.json") 0).1 rfl

/-- The validated record `create_calendar_event` produces for a summary and a
start time with everything else defaulted. -/
def c2Params (startTime : String) : CreateCalendarEventParams :=
  { summary := "Team sync"
    description := none
    start_time := startTime
    end_time := none
    duration_minutes := 60
    attendees := none
    location := none
    timezone := "Asia/Kolkata"
    add_meet_link := true }

/-- The end time the Meet service sends to `calendar.events.insert` for the
given validated parameters (read off the recorded API request). -/
def sentEndDateTime (p : CreateCalendarEventParams) : Option String :=
  match (createCalendarEvent sampleWorld p (Cache.empty, [])).2.2 with
  | [Ev.calendarInsert req] => some req.endDateTime
  | _ => none

/-- C2: the spec's own example holds (start 2026-01-30 14:00, no end, default
60-minute duration, end 2026-01-30T15:00:00), but the computation reduces the
end hour modulo 24 without advancing the date: start 2026-01-30 23:30 with the
same default duration yields end 2026-01-30T00:30:00 - before the start -
instead of start + 60 minutes (2026-01-31T00:30:00). -/
theorem c2_end_time_mod24 :
    parseCreateCalendarEvent (JValue.obj
      [("summary", .str "Team sync"), ("start_time", .str "2026-01-30 14:00")]) =
      .ok (c2Params "2026-01-30 14:00") ∧
    sentEndDateTime (c2Params "2026-01-30 14:00") = some "2026-01-30T15:00:00" ∧
    parseCreateCalendarEvent (JValue.obj
      [("summary", .str "Team sync"), ("start_time", .str "2026-01-30 23:30")]) =
      .ok (c2Params "2026-01-30 23:30") ∧
    sentEndDateTime (c2Params "2026-01-30 23:30") = some "2026-01-30T00:30:00" ∧
    "2026-01-30T00:30:00" ≠ "2026-01-31T00:30:00" :=
  ⟨rfl, by decide, rfl, by decide, by decide⟩

/-! ### C7: the raw-message layout and encoding of send_email / create_draft -/

/-- Base64 with `+` replaced by `-`, `/` replaced by `_` and all trailing `=`
padding removed (base64url without padding). -/
def base64UrlNoPad (s : String) : String :=
  stripTrailingEq (replaceChar (replaceChar (b64Encode s) '+' '-') '/' '_')

/-- Modelled from the claim under test (C7's stated layout): the header lines
To and Subject, then Cc and Bcc when present - and no other header - joined by
CRLF, followed by a blank line, followed by the body verbatim. -/
def claimRawMessage (p : SendEmailParams) : String :=
  String.intercalate "\r\n"
    (["To: " ++ p.to_, "Subject: " ++ p.subject]
     ++ (match p.cc with
         | some c => if c ≠ "" then ["Cc: " ++ c] else []
         | none => [])
     ++ (match p.bcc with
         | some b => if b ≠ "" then ["Bcc: " ++ b] else []
         | none => []))
  ++ "\r\n\r\n" ++ p.body

def claimEncodedEmail (p : SendEmailParams) : String :=
  base64UrlNoPad (claimRawMessage p)

/-- The amended layout: the source inserts the fixed
`Content-Type: text/plain; charset=utf-8` and `MIME-Version: 1.0` header
lines between Subject and the optional Cc/Bcc. -/
def amendedRawMessage (p : SendEmailParams) : String :=
  String.intercalate "\r\n"
    (["To: " ++ p.to_,
      "Subject: " ++ p.subject,
      "Content-Type: text/plain; charset=utf-8",
      "MIME-Version: 1.0"]
     ++ (match p.cc with
         | some c => if c ≠ "" then ["Cc: " ++ c] else []
         | none => [])
     ++ (match p.bcc with
         | some b => if b ≠ "" then ["Bcc: " ++ b] else []
         | none => []))
  ++ "\r\n\r\n" ++ p.body

def amendedEncodedEmail (p : SendEmailParams) : String :=
  base64UrlNoPad (amendedRawMessage p)

theorem trace_tryCatch_tell_ofExcept (ev : Ev) (x : Except String α)
    (wrap : String → String) (st : St) :
    (M.tryCatchM (M.bind (M.tell ev) (fun _ => M.ofExcept x))
      (fun e => M.throwM (wrap e)) st).2 = (st.1, st.2 ++ [ev]) := by
  cases x <;> simp [M.tryCatchM, M.bind, M.tell, M.ofExcept, M.throwM]

/-- C7 counterexample: for `to=a@b.co`, `subject=Hi`, `body=Hello` (no cc/bcc)
the encoded message `send_email` hands to the mail API is not the encoding of
the claim's header layout (the source also inserts Content-Type and
MIME-Version lines). -/
theorem c7_raw_message_counterexample :
    (sendEmail sampleWorld ⟨"a@b.co", "Hi", "Hello", none, none⟩ (Cache.empty, [])).2.2 ≠
      [Ev.gmailSend (claimEncodedEmail ⟨"a@b.co", "Hi", "Hello", none, none⟩)] := by
  decide

/-- C7 amended: for every validated input, both `send_email` and
`create_draft` hand the mail API the same encoded message: the header lines
To, Subject, the fixed Content-Type and MIME-Version, then Cc and Bcc when
present, joined by CRLF, a blank line, the body verbatim, base64-encoded with
`+` and `/` replaced by `-` and `_` and trailing `=` removed. -/
theorem c7_raw_message_encoding (w : World) (p : SendEmailParams) (st : St) :
    (sendEmail w p st).2 = (st.1, st.2 ++ [Ev.gmailSend (amendedEncodedEmail p)]) ∧
    (createDraft w p st).2 = (st.1, st.2 ++ [Ev.gmailDraftCreate (amendedEncodedEmail p)]) := by
  constructor
  · exact trace_tryCatch_tell_ofExcept (Ev.gmailSend (amendedEncodedEmail p))
      (w.gmailSendApi (amendedEncodedEmail p)) (fun e => "Failed to send email: " ++ e) st
  · exact trace_tryCatch_tell_ofExcept (Ev.gmailDraftCreate (amendedEncodedEmail p))
      (w.gmailDraftApi (amendedEncodedEmail p)) (fun e => "Failed to create draft: " ++ e) st

theorem not_len_lt_one_of_ne_empty (s : String) (h : s ≠ "") : ¬ (s.length < 1) := by
  intro hlt
  apply h
  have h0 : s.length = 0 := Nat.lt_one_iff.mp hlt
  cases s with
  | mk data =>
    cases data with
    | nil => rfl
    | cons a l => simp [String.length] at h0

/-- C5: while authenticated (the Gmail client is cached), a `send_email` call
whose `to` fails the email check is rejected by validation: the envelope is the
error envelope carrying the aggregated message naming the `to` field (behind
the top-level `Error: ` prefix), and the trace records only the validation run
- in particular no `gmailSend` API call, so the mail client is never invoked. -/
theorem c5_send_email_invalid_to (w : World) (cache : Cache) (tr : List Ev) (g : Nat)
    (hg : cache.gmailService = some g)
    (toVal subject body : String)
    (hto : zodEmailCheck toVal = false)
    (hs : subject ≠ "") (hb : body ≠ "") :
    serverCallTool w "send_email"
      (JValue.obj [("to", .str toVal), ("subject", .str subject), ("body", .str body)])
      (cache, tr) =
      (createErrorResponse "Error: Invalid input: to: Valid email address required",
       (cache, tr ++ [Ev.validate])) := by
  have hs1 := not_len_lt_one_of_ne_empty subject hs
  have hb1 := not_len_lt_one_of_ne_empty body hb
  have hdisp : handleToolCall w "send_email"
      (JValue.obj [("to", .str toVal), ("subject", .str subject), ("body", .str body)]) =
      handleSendEmail w
        (JValue.obj [("to", .str toVal), ("subject", .str subject), ("body", .str body)]) := rfl
  unfold serverCallTool
  rw [hdisp]
  simp [handleSendEmail, withGmailAuth, getGmailService, M.getCache, M.bind, bind_eq,
    pure_eq, M.pure, M.tryCatchM, M.tell, M.throwM, hg, validateInputM,
    parseSendEmail, parseObj, jGet, parseStrEmail, parseStrMin1, parseOptStr, zComb,
    typeIssue, typeIssueMsg, formatIssues, hto, hs1, hb1,
    String.intercalate, String.intercalate.go]

/-- C5 witness: the claim's own input `to="not-an-email"` in an authenticated
world. -/
theorem c5_send_email_invalid_to_witness :
    serverCallTool sampleWorld "send_email"
      (JValue.obj [("to", .str "not-an-email"), ("subject", .str "Hi"), ("body", .str "Yo")])
      (⟨some 1, some 1, some 1, some 1⟩, []) =
      (createErrorResponse "Error: Invalid input: to: Valid email address required",
       (⟨some 1, some 1, some 1, some 1⟩, [Ev.validate])) :=
  c5_send_email_invalid_to sampleWorld ⟨some 1, some 1, some 1, some 1⟩ [] 1 rfl
    "not-an-email" "Hi" "Yo" (by decide) (by decide) (by decide)

/-- Whether a validation outcome succeeded. -/
def validationOk : Except (List Issue) α → Bool
  | .ok _ => true
  | .error _ => false

/-- An argument object supplying only an integral `limit`. -/
def jlimit (v : Int) : JValue := JValue.obj [("limit", JValue.int v)]

/-- An argument object supplying only a non-integral `limit` (floor `m`). -/
def jlimitF (m : Int) : JValue := JValue.obj [("limit", JValue.nonint m)]

/-- C4: for every tool schema with a bounded numeric limit, a limit above the
maximum or below 1 fails validation, a non-integral limit always fails
validation, and omitting the limit validates with the default 10 (the search
schemas shown with their required query supplied). -/
theorem c4_limit_bounds (v m : Int) :
    ((v < 1 ∨ 100 < v) →
      validationOk (parseListConferences (jlimit v)) = false ∧
      validationOk (parseListMeetings (jlimit v)) = false) ∧
    ((v < 1 ∨ 50 < v) →
      validationOk (parseListEmails (jlimit v)) = false ∧
      validationOk (parseSearchEmails (JValue.obj
        [("query", .str "q"), ("limit", .int v)])) = false ∧
      validationOk (parseListDocs (jlimit v)) = false ∧
      validationOk (parseSearchDocs (JValue.obj
        [("query", .str "q"), ("limit", .int v)])) = false) ∧
    (validationOk (parseListConferences (jlimitF m)) = false ∧
     validationOk (parseListMeetings (jlimitF m)) = false ∧
     validationOk (parseListEmails (jlimitF m)) = false ∧
     validationOk (parseSearchEmails (JValue.obj
       [("query", .str "q"), ("limit", .nonint m)])) = false ∧
     validationOk (parseListDocs (jlimitF m)) = false ∧
     validationOk (parseSearchDocs (JValue.obj
       [("query", .str "q"), ("limit", .nonint m)])) = false) ∧
    (parseListConferences (JValue.obj []) = .ok ⟨10⟩ ∧
     parseListMeetings (JValue.obj []) = .ok ⟨10⟩ ∧
     parseListEmails (JValue.obj []) = .ok ⟨10⟩ ∧
     parseListDocs (JValue.obj []) = .ok ⟨10⟩ ∧
     parseSearchEmails (JValue.obj [("query", .str "q")]) = .ok ⟨"q", 10⟩ ∧
     parseSearchDocs (JValue.obj [("query", .str "q")]) = .ok ⟨"q", 10⟩) := by
  refine ⟨?_, ?_, ?_, rfl, rfl, rfl, rfl, rfl, rfl⟩
  · rintro (h | h) <;>
      constructor <;>
      simp [parseListConferences, parseListMeetings, parseObj, jGet, jlimit,
        parseLimitField, validationOk, zComb, h, List.append_eq_nil]
  · rintro (h | h) <;>
      refine ⟨?_, ?_, ?_, ?_⟩ <;>
      simp [parseListEmails, parseSearchEmails, parseListDocs, parseSearchDocs,
        parseObj, jGet, jlimit, parseLimitField, parseStrMin1, validationOk, zComb, h,
        String.length, List.append_eq_nil]
  · refine ⟨?_, ?_, ?_, ?_, ?_, ?_⟩ <;>
      simp [parseListConferences, parseListMeetings, parseListEmails, parseSearchEmails,
        parseListDocs, parseSearchDocs, parseObj, jGet, jlimit, jlimitF,
        parseLimitField, parseStrMin1, validationOk, zComb, String.length]

/-- C4 witness: limit 101 fails the `[1,100]` schemas, limit 51 fails the
`[1,50]` schemas. -/
theorem c4_limit_bounds_witness :
    validationOk (parseListConferences (jlimit 101)) = false ∧
    validationOk (parseListEmails (jlimit 51)) = false :=
  ⟨((c4_limit_bounds 101 0).1 (Or.inr (by decide))).1,
   ((c4_limit_bounds 51 0).2.1 (Or.inr (by decide))).1⟩

/-- C3: both meeting listings ask the calendar API for twice the requested
limit (recorded in the trace event), keep exactly the events that pass the
Meet filter (named conference solution `Google Meet` or a truthy
`hangoutLink`), in order, truncated to the limit; hence no more than `n`
events come back and every one is Meet-backed. -/
theorem c3_meet_filter_truncate (w : World) (n : Int) (st : St)
    (upEvents pastEvents : List MeetingEvent)
    (hn : 1 ≤ n)
    (hup : w.calendarListApi (w.msToIso w.nowMs) none (n * 2) = .ok (some upEvents))
    (hpast : w.calendarListApi
        (w.msToIso (w.nowMs - config.defaults.pastMeetingsDays * 24 * 60 * 60 * 1000))
        (some (w.msToIso w.nowMs)) (n * 2) = .ok (some pastEvents)) :
    listUpcomingMeetings w n st =
      (.ok ((upEvents.filter isMeetEvent).take n.toNat),
       (st.1, st.2 ++ [Ev.calendarList (w.msToIso w.nowMs) none (n * 2)])) ∧
    listPastMeetings w n st =
      (.ok ((pastEvents.filter isMeetEvent).take n.toNat),
       (st.1, st.2 ++ [Ev.calendarList
         (w.msToIso (w.nowMs - config.defaults.pastMeetingsDays * 24 * 60 * 60 * 1000))
         (some (w.msToIso w.nowMs)) (n * 2)])) ∧
    ((upEvents.filter isMeetEvent).take n.toNat).length ≤ n.toNat ∧
    (∀ e ∈ (upEvents.filter isMeetEvent).take n.toNat, isMeetEvent e = true) ∧
    ((pastEvents.filter isMeetEvent).take n.toNat).length ≤ n.toNat ∧
    (∀ e ∈ (pastEvents.filter isMeetEvent).take n.toNat, isMeetEvent e = true) := by
  have h0 : (0 : Int) ≤ n := by omega
  refine ⟨?_, ?_, ?_, ?_, ?_, ?_⟩
  · simp [listUpcomingMeetings, M.tryCatchM, M.bind, bind_eq, pure_eq, M.pure, M.tell,
      M.ofExcept, hup, jsSliceTo, h0]
  · simp [listPastMeetings, M.tryCatchM, M.bind, bind_eq, pure_eq, M.pure, M.tell,
      M.ofExcept, hpast, jsSliceTo, h0]
  · exact List.length_take_le _ _
  · intro e he
    exact List.of_mem_filter (List.mem_of_mem_take he)
  · exact List.length_take_le _ _
  · intro e he
    exact List.of_mem_filter (List.mem_of_mem_take he)

/-- Two calendar events: one Meet-backed (join link), one not. -/
def c3MeetEvent : MeetingEvent :=
  ⟨none, some "A", none, none, none, some "https://meet.google.com/abc", none⟩

def c3PlainEvent : MeetingEvent :=
  ⟨none, some "B", none, none, none, none, none⟩

def c3World : World :=
  { sampleWorld with
    calendarListApi := fun _ _ _ => .ok (some [c3MeetEvent, c3PlainEvent]) }

/-- C3 witness: limit 1 over a two-event calendar (one Meet-backed, one not). -/
theorem c3_meet_filter_truncate_witness :
    listUpcomingMeetings c3World 1 (Cache.empty, []) =
      (.ok (([c3MeetEvent, c3PlainEvent].filter isMeetEvent).take (Int.toNat 1)),
       (Cache.empty, [Ev.calendarList (c3World.msToIso c3World.nowMs) none (1 * 2)])) ∧
    ([c3MeetEvent, c3PlainEvent].filter isMeetEvent).take (Int.toNat 1) = [c3MeetEvent] :=
  ⟨(c3_meet_filter_truncate c3World 1 (Cache.empty, []) [c3MeetEvent, c3PlainEvent]
      [c3MeetEvent, c3PlainEvent] (by decide) rfl rfl).1,
   by decide⟩

theorem getMessage_state (w : World) (i : String) (st : St) :
    (getMessage w i st).2 = (st.1, st.2 ++ [Ev.gmailGet i]) := by
  unfold getMessage
  cases hx : w.gmailGetApi i <;>
    simp [M.tryCatchM, M.bind, bind_eq, M.tell, M.ofExcept, M.throwM, hx]

theorem mapMessages_trace (w : World) (ids : List String) (st : St) :
    ∃ rest, (mapMessages w ids st).2 = (st.1, st.2 ++ rest) := by
  induction ids generalizing st with
  | nil => exact ⟨[], by simp [mapMessages, M.pure]⟩
  | cons i rest ih =>
    simp only [mapMessages, bind_eq]
    rcases hg : getMessage w i st with ⟨res, st1⟩
    have hst1 : st1 = (st.1, st.2 ++ [Ev.gmailGet i]) := by
      have h := getMessage_state w i st
      rw [hg] at h
      exact h
    subst hst1
    cases res with
    | error e =>
      refine ⟨[Ev.gmailGet i], ?_⟩
      simp [M.bind, hg]
    | ok m =>
      obtain ⟨r2, h2⟩ := ih (st.1, st.2 ++ [Ev.gmailGet i])
      rcases hmm : mapMessages w rest (st.1, st.2 ++ [Ev.gmailGet i]) with ⟨res2, st2⟩
      rw [hmm] at h2
      simp only at h2
      refine ⟨[Ev.gmailGet i] ++ r2, ?_⟩
      cases res2 <;> simp [M.bind, hg, hmm, h2, M.pure]

theorem listMessages_trace (w : World) (q : Option String) (n : Int)
    (labels : List String) (st : St) :
    ∃ rest, (listMessages w q n labels st).2 =
      (st.1, st.2 ++ [Ev.gmailList q n labels] ++ rest) := by
  unfold listMessages
  rcases hx : w.gmailListApi q n labels with e | ids
  · refine ⟨[], ?_⟩
    simp [M.tryCatchM, M.bind, bind_eq, M.tell, M.ofExcept, M.throwM, hx]
  · obtain ⟨r2, h2⟩ := mapMessages_trace w (ids.getD [])
      (st.1, st.2 ++ [Ev.gmailList q n labels])
    rcases hmm : mapMessages w (ids.getD [])
        (st.1, st.2 ++ [Ev.gmailList q n labels]) with ⟨res2, st2⟩
    have hst2 : st2 = (st.1, st.2 ++ [Ev.gmailList q n labels] ++ r2) := by
      rw [hmm] at h2
      simpa using h2
    refine ⟨r2, ?_⟩
    cases res2 <;>
      simp [M.tryCatchM, M.bind, bind_eq, M.tell, M.ofExcept, M.throwM, M.pure,
        hx, hmm, hst2]

theorem withGmailAuth_cached (w : World) (h : Nat → M ToolResponse) (cache : Cache)
    (tr : List Ev) (g : Nat) (hg : cache.gmailService = some g) :
    withGmailAuth w h (cache, tr) =
      M.tryCatchM (h g)
        (fun e => if e = "NOT_AUTHENTICATED" then M.pure NOT_AUTHENTICATED_RESPONSE
          else M.throwM e) (cache, tr) := by
  simp [withGmailAuth, getGmailService, M.getCache, M.bind, bind_eq, pure_eq, M.pure,
    M.tryCatchM, hg]

/-- C10: `list_emails` invokes the shared listing routine with no query and the
Gmail client's default label filter `["INBOX"]`, while `search_emails` is
literally the same routine with the query and an empty label filter; the
recorded `gmailList` API call in the trace carries exactly those arguments. -/
theorem c10_inbox_label_filter (w : World) (cache : Cache) (tr : List Ev) (g : Nat)
    (hg : cache.gmailService = some g) (q : String) (n : Int)
    (hn1 : 1 ≤ n) (hn2 : n ≤ 50) (hq : q ≠ "") :
    (∀ st, searchEmails w q n st = listMessages w (some q) n [] st) ∧
    (∃ rest, (serverCallTool w "list_emails" (jlimit n) (cache, tr)).2.2 =
      tr ++ [Ev.validate, Ev.gmailList none n ["INBOX"]] ++ rest) ∧
    (∃ rest, (serverCallTool w "search_emails"
        (JValue.obj [("query", .str q), ("limit", .int n)]) (cache, tr)).2.2 =
      tr ++ [Ev.validate, Ev.gmailList (some q) n []] ++ rest) := by
  have h1 : ¬ (n < 1) := by omega
  have h2 : ¬ (n > 50) := by omega
  have hql := not_len_lt_one_of_ne_empty q hq
  refine ⟨fun st => rfl, ?_, ?_⟩
  · have hdisp : handleToolCall w "list_emails" (jlimit n) =
        handleListEmails w (jlimit n) := rfl
    unfold serverCallTool
    rw [hdisp]
    simp only [handleListEmails]
    rw [withGmailAuth_cached w _ cache tr g hg]
    obtain ⟨rest, hrest⟩ := listMessages_trace w none n ["INBOX"]
      (cache, tr ++ [Ev.validate])
    rcases hlm : listMessages w none n ["INBOX"]
        (cache, tr ++ [Ev.validate]) with ⟨res, st2⟩
    have hst2 : st2 = (cache, tr ++ [Ev.validate] ++
        [Ev.gmailList none n ["INBOX"]] ++ rest) := by
      rw [hlm] at hrest
      simpa using hrest
    refine ⟨rest, ?_⟩
    have hrun : ∀ st0, validateInputM parseListEmails (jlimit n) st0 =
        (.ok ⟨n⟩, (st0.1, st0.2 ++ [Ev.validate])) := by
      intro st0
      simp [validateInputM, M.tell, M.bind, bind_eq, M.pure, parseListEmails, parseObj,
        jGet, jlimit, parseLimitField, h1, h2]
    cases res with
    | error e =>
      by_cases he : e = "NOT_AUTHENTICATED" <;>
        simp [M.tryCatchM, M.bind, bind_eq, M.pure, M.throwM, hrun, hlm, hst2, he,
          config]
    | ok msgs =>
      by_cases hm : msgs = [] <;>
        simp [M.tryCatchM, M.bind, bind_eq, M.pure, M.throwM, hrun, hlm, hst2, hm,
          config]
  · have hdisp : handleToolCall w "search_emails"
        (JValue.obj [("query", .str q), ("limit", .int n)]) =
        handleSearchEmails w (JValue.obj [("query", .str q), ("limit", .int n)]) := rfl
    unfold serverCallTool
    rw [hdisp]
    simp only [handleSearchEmails]
    rw [withGmailAuth_cached w _ cache tr g hg]
    obtain ⟨rest, hrest⟩ := listMessages_trace w (some q) n []
      (cache, tr ++ [Ev.validate])
    rcases hlm : listMessages w (some q) n [] (cache, tr ++ [Ev.validate]) with ⟨res, st2⟩
    have hst2 : st2 = (cache, tr ++ [Ev.validate] ++
        [Ev.gmailList (some q) n []] ++ rest) := by
      rw [hlm] at hrest
      simpa using hrest
    refine ⟨rest, ?_⟩
    have hrun : ∀ st0, validateInputM parseSearchEmails
        (JValue.obj [("query", .str q), ("limit", .int n)]) st0 =
        (.ok ⟨q, n⟩, (st0.1, st0.2 ++ [Ev.validate])) := by
      intro st0
      simp [validateInputM, M.tell, M.bind, bind_eq, M.pure, parseSearchEmails, parseObj,
        jGet, parseLimitField, parseStrMin1, zComb, h1, h2, hql]
    cases res with
    | error e =>
      by_cases he : e = "NOT_AUTHENTICATED" <;>
        simp [searchEmails, M.tryCatchM, M.bind, bind_eq, M.pure, M.throwM, hrun, hlm,
          hst2, he]
    | ok msgs =>
      by_cases hm : msgs = [] <;>
        simp [searchEmails, M.tryCatchM, M.bind, bind_eq, M.pure, M.throwM, hrun, hlm,
          hst2, hm]

/-- C10 witness: in a concrete authenticated world, `search_emails` for
`"report"` with limit 5 runs exactly the shared listing routine with the query
and an empty label filter. -/
theorem c10_inbox_label_filter_witness :
    searchEmails sampleWorld "report" 5 (Cache.empty, []) =
      listMessages sampleWorld (some "report") 5 [] (Cache.empty, []) :=
  (c10_inbox_label_filter sampleWorld ⟨some 1, some 1, some 1, some 1⟩ [] 1 rfl
    "report" 5 (by decide) (by decide) (by decide)).1 (Cache.empty, [])

end GW
